import Mathlib

/-!
Verification of the Revit MCP route layer (revit-mcp-server).

We shallowly embed the pyRevit route handlers from `src/revit_mcp/` as pure
Lean functions over an explicit document model.  JSON response bodies are
modelled by the inductive `J`; the host (Revit) document is modelled by the
structure `Doc`, whose fields record exactly the host state and host behaviour
the handlers consume (levels, element types, the element table, the phase
count, whether a transaction commit succeeds, the cascade set of a host
delete, the outcome of `exec`, the active view).  Host API calls that the
handlers rely on (`Level.Create`, `Wall.Create`, `doc.Delete`, ...) are
modelled faithfully on this state; quantities are rationals (the code's
arithmetic on them is exact division / multiplication by constants).

Numbers on the wire are millimetres; the handlers convert with 1/304.8 as in
the source.  `pyRound` models IronPython 2's `round` (half away from zero).
-/

namespace RevitMCP

/-- JSON values, the shape of request/response bodies built by the handlers. -/
inductive J where
  | str : String → J
  | num : ℚ → J
  | jbool : Bool → J
  | arr : List J → J
  | obj : List (String × J) → J

/-- Field lookup in a JSON object (as Python `dict[key]` / `.get(key)`). -/
def J.get (j : J) (k : String) : Option J :=
  match j with
  | .obj fs => fs.lookup k
  | _ => none

/-- An HTTP response: `routes.make_response(data=..., status=...)`. -/
structure Resp where
  status : Nat
  body : J

/-- `routes.make_response(data=...)` — pyRevit's default status is 200. -/
def ok200 (body : J) : Resp := ⟨200, body⟩

/-- `routes.make_response(data={"error": msg}, status=s)`. -/
def mkErr (s : Nat) (msg : String) : Resp := ⟨s, J.obj [("error", J.str msg)]⟩

/-- `utils.sanitize_string`: encode ASCII with replacement, per character. -/
def sanitize_string (s : String) : String :=
  ⟨s.data.map (fun c => if c.toNat ≤ 127 then c else '?')⟩

/-- `utils.normalize_string`: `str(text).strip()` then ASCII-replace. -/
def normalize_string (s : String) : String := sanitize_string s.trim

/-- IronPython 2 `round(x, 0)` to an integer: half away from zero. -/
def pyRoundInt (x : ℚ) : ℤ :=
  if 0 ≤ x then ⌊x + 1/2⌋ else -⌊-x + 1/2⌋

/-- IronPython 2 `round(x, n)`: half away from zero at `n` decimal places. -/
def pyRound (n : ℕ) (x : ℚ) : ℚ := (pyRoundInt (x * 10 ^ n) : ℚ) / 10 ^ n

/-- Python's `needle in hay` substring test. -/
def pyContains (hay needle : String) : Bool := (hay.splitOn needle).length > 1

/-- Python truthiness of an optional string (`None` and `""` are falsy). -/
def truthyStr : Option String → Bool
  | none => false
  | some s => !s.isEmpty

/-- A point dictionary: `{"x": ..., "y": ..., "z": ...}` with optional keys. -/
structure Pt where
  x? : Option ℚ
  y? : Option ℚ
  z? : Option ℚ
deriving DecidableEq

/-- The empty dictionary `{}` as a point. -/
def Pt.empty : Pt := ⟨none, none, none⟩

instance : Inhabited Pt := ⟨Pt.empty⟩

/-- Python truthiness of a point dictionary: `{}` is falsy. -/
def Pt.truthy (p : Pt) : Bool := p.x?.isSome || p.y?.isSome || p.z?.isSome

/-- Truthiness of an optional point (`None` and `{}` are falsy). -/
def truthyPt : Option Pt → Bool
  | none => false
  | some p => p.truthy

/-- `p.get("x", 0)`. -/
def Pt.gx (p : Pt) : ℚ := p.x?.getD 0
/-- `p.get("y", 0)`. -/
def Pt.gy (p : Pt) : ℚ := p.y?.getD 0
/-- `p.get("z", 0)`. -/
def Pt.gz (p : Pt) : ℚ := p.z?.getD 0

/-- `analysis.py` line 15 (and the same constant in the other modules):
`MM_TO_FEET = 1.0 / 304.8`. -/
def MM_TO_FEET : ℚ := 1 / (304.8 : ℚ)

/-- `analysis.py` line 16: `SQFT_TO_SQM = 0.0929`. -/
def SQFT_TO_SQM : ℚ := (0.0929 : ℚ)

/-- `analysis.py` line 17: `CUFT_TO_CUM = 0.0283168`. -/
def CUFT_TO_CUM : ℚ := (0.0283168 : ℚ)

/-- A level element of the host document (id, name, elevation in feet). -/
structure Level where
  id : ℤ
  name : String
  elevation : ℚ
deriving DecidableEq

/-- An element type (wall type / family symbol / floor type / roof type). -/
structure ElemType where
  id : ℤ
  name : String
  isActive : Bool
deriving DecidableEq

/-- A generic element of the host document's element table, carrying the
fields the embedded handlers read (category, type id, level id, the `Length`
and `Height` parameters in feet, a bounding box, whether it is a type). -/
structure Elem where
  id : ℤ
  name : String
  category? : Option String
  catType : String
  builtinCat? : Option String
  typeId? : Option ℤ
  levelId? : Option ℤ
  length? : Option ℚ
  height? : Option ℚ
  heightAboveLevel? : Option ℚ
  bboxMin? : Option (ℚ × ℚ × ℚ)
  bboxMax? : Option (ℚ × ℚ × ℚ)
  isType : Bool
deriving DecidableEq

/-- A room element: the parameters read by `/room_data/` and `/create_room/`
(`None` models a parameter whose `AsString()` is null / that has no value). -/
structure Room where
  id : ℤ
  name? : Option String
  number? : Option String
  levelId? : Option ℤ
  area? : Option ℚ
  perimeter? : Option ℚ
  department? : Option String
  placed : Bool
deriving DecidableEq

/-- A view: its `ViewType` name and the ids visible in it. -/
structure View where
  viewType : String
  visibleIds : List ℤ
deriving DecidableEq

/-- Outcome of the host executing a code string (`exec` in `execute_code`):
either captured output, or an exception with its type name, message and the
output captured before the failure. -/
inductive ExecResult where
  | ok (output : String)
  | fail (errType msg partialOut : String)

/-- The host Revit document, together with the host behaviours the handlers
depend on.  `commitOk` is whether `Transaction.Commit()` succeeds;
`deleteCascade` gives the dependent ids the host removes along with an id;
`newRoomAt uv` is whether `NewRoom(level, uv)` finds an enclosed area there;
`newRoomArea?` is the host-computed `Area` parameter of a newly created room;
`execRun` is the host outcome of executing a code string. -/
structure Doc where
  levels : List Level
  wallTypes : List ElemType
  beamTypes : List ElemType
  floorTypes : List ElemType
  roofTypes : List ElemType
  elements : List Elem
  rooms : List Room
  nextId : ℤ
  commitOk : Bool
  phases : ℕ
  newRoomAt : ℚ × ℚ → Bool
  newRoomArea? : Option ℚ
  deleteCascade : ℤ → List ℤ
  execRun : String → ExecResult
  activeView? : Option View

/-- `utils.get_element_name` on a level. -/
def Level.getName (lv : Level) : String := sanitize_string lv.name

/-- `utils.get_element_name` on an element type. -/
def ElemType.getName (t : ElemType) : String := sanitize_string t.name

/-- `utils.get_element_name` on a generic element. -/
def Elem.getName (e : Elem) : String := sanitize_string e.name

/-- Overwriting insertion into an association list: Python dict assignment
`m[k] = v` (an existing key keeps its position, a new key goes to the end). -/
def upsert {α : Type} (m : List (String × α)) (k : String) (v : α) :
    List (String × α) :=
  if m.any (fun p => p.1 == k) then
    m.map (fun p => if p.1 == k then (k, v) else p)
  else m ++ [(k, v)]

/-- Build a name-keyed dict from a list of entities, as the handlers'
`for x in xs: map[get_element_name(x)] = x` loops do. -/
def nameMap {α : Type} (getName : α → String) (xs : List α) :
    List (String × α) :=
  xs.foldl (fun m x => upsert m (getName x) x) []

/-- The values of a dict, in insertion order. -/
def dictValues {α : Type} (m : List (String × α)) : List α := m.map (·.2)

/-- The keys of a dict, in insertion order. -/
def dictKeys {α : Type} (m : List (String × α)) : List String := m.map (·.1)

/-- `", ".join(sorted(keys))`. -/
def joinSortedKeys (ks : List String) : String :=
  String.intercalate ", " (ks.mergeSort (fun a b => decide (a ≤ b)))

/-- `sorted(level_map.values(), key=lambda x: x.Elevation)[0]`: the first
level of minimal elevation (Python's sort is stable). -/
def firstMinByElevation : List Level → Option Level
  | [] => none
  | lv :: rest =>
    rest.foldl
      (fun best cand => if cand.elevation < best.elevation then cand else best)
      lv |> some

/-- `doc.level_map` as built by the building handlers. -/
def Doc.level_map (doc : Doc) : List (String × Level) :=
  nameMap Level.getName doc.levels

/-- Result of one handler invocation: the response, the resulting document
(the original one when the handler rolled back or made no change), and how
many host transactions were started / committed / rolled back. -/
structure Out where
  resp : Resp
  doc? : Option Doc
  txStarted : ℕ
  txCommitted : ℕ
  txRolledBack : ℕ

/-- A response produced without touching any transaction. -/
def noTx (d : Option Doc) (r : Resp) : Out := ⟨r, d, 0, 0, 0⟩

/-- Host message of a failed `Transaction.Commit()` (`str(tx_err)`). -/
def commitFailMsg : String := "The transaction could not be committed"

/-- Model of `traceback.format_exc()` for an exception with message `msg`. -/
def pyTraceback (msg : String) : String :=
  "Traceback (most recent call last): " ++ msg

/-! ## `/create_level/` — `building.py`, `create_level_handler` -/

/-- One entry of the `levels` array of a `/create_level/` request. -/
structure LevelDef where
  elevation? : Option ℚ
  name? : Option String
deriving DecidableEq

/-- Body of a `/create_level/` request. -/
structure CreateLevelReq where
  levels : List LevelDef
deriving DecidableEq

/-- `DB.Level.Create(doc, elevation_feet)` followed by the optional
`new_level.Name = str(name)`: the level the host ends up holding.  The host
assigns a default name to a fresh level; the handler overwrites it when the
request carries a truthy `name`. -/
def newLevelFrom (id : ℤ) (lv : LevelDef) (elevation_feet : ℚ) : Level :=
  let hostName := "Level " ++ toString id
  let finalName :=
    match lv.name? with
    | some n => if n.isEmpty then hostName else n
    | none => hostName
  ⟨id, finalName, elevation_feet⟩

/-- The common per-item loop body of the three batch creation handlers in
`building.py`: validate the item (`check`), and either append
`"<label> <idx>: <message>"` to `errors` (every error string these loops
produce starts that way, including caught per-item exceptions) or perform the
host creation (`apply`) and append the created record. -/
def batchFold {α β : Type} (label : String) (check : α → Except String β)
    (apply : Doc → β → Doc × J) (st : Doc × List J × List String)
    (ie : ℕ × α) : Doc × List J × List String :=
  match check ie.2 with
  | .error m =>
      (st.1, st.2.1, st.2.2 ++ [label ++ " " ++ toString ie.1 ++ ": " ++ m])
  | .ok k =>
      let dk := apply st.1 k
      (dk.1, st.2.1 ++ [dk.2], st.2.2)

/-- Validation of one `/create_level/` item: only a present `elevation` is
required (`lv.get("elevation") is None` is the only rejection). -/
def levelCheck (lv : LevelDef) : Except String (LevelDef × ℚ) :=
  match lv.elevation? with
  | none => .error "elevation is required"
  | some elevation_mm => .ok (lv, elevation_mm)

/-- Host creation for one `/create_level/` item: create the level at
`elevation / 304.8` feet, optionally rename it, and build the response
record (`id`, `name`, `elevation_mm`). -/
def levelApply (doc : Doc) (k : LevelDef × ℚ) : Doc × J :=
  let elevation_feet := k.2 / 304.8
  let newLevel := newLevelFrom doc.nextId k.1 elevation_feet
  let doc' := { doc with levels := doc.levels ++ [newLevel],
                         nextId := doc.nextId + 1 }
  let entry := J.obj [("id", J.num (newLevel.id : ℚ)),
                      ("name", J.str newLevel.getName),
                      ("elevation_mm", J.num k.2)]
  (doc', entry)

/-- The batch success envelope shared by the three building handlers. -/
def batchSuccessBody (created : List J) (errors : List String) (noun : String) : J :=
  J.obj ([("status", J.str "success"),
          ("created", J.arr created),
          ("count", J.num (created.length : ℚ)),
          ("message", J.str ("Created " ++ toString created.length ++ " " ++ noun))] ++
         (if errors.isEmpty then [] else [("errors", J.arr (errors.map J.str))]))

/-- `POST /create_level/` (`building.py`, `create_level_handler`). -/
def create_level_handler (doc? : Option Doc) (req : CreateLevelReq) : Out :=
  match doc? with
  | none =>
      noTx none (mkErr 503 "No active Revit document — open a project in Revit 2026")
  | some doc =>
      if req.levels.isEmpty then
        noTx (some doc) (mkErr 400 "No levels provided — pass an array of level definitions")
      else
        let st := req.levels.enum.foldl (batchFold "Level" levelCheck levelApply) (doc, [], [])
        let doc' := st.1
        let created := st.2.1
        let errors := st.2.2
        if doc.commitOk then
          ⟨ok200 (batchSuccessBody created errors "level(s)"), some doc', 1, 1, 0⟩
        else
          ⟨mkErr 500 ("Transaction failed: " ++ commitFailMsg), some doc, 1, 0, 1⟩

/-! ## `/create_line/` — `building.py`, `create_line_based` -/

/-- One entry of the `elements` array of a `/create_line/` request. -/
structure LineElem where
  element_type? : Option String
  start_point? : Option Pt
  end_point? : Option Pt
  level_name? : Option String
  type_name? : Option String
  name? : Option String
  height? : Option ℚ
  offset? : Option ℚ
  structural : Bool
deriving DecidableEq

/-- Body of a `/create_line/` request. -/
structure CreateLineReq where
  elements : List LineElem
deriving DecidableEq

/-- The name-keyed dicts `create_line_based` builds before its loop. -/
structure LineCtx where
  level_map : List (String × Level)
  wall_type_map : List (String × ElemType)
  beam_type_map : List (String × ElemType)

/-- The dicts `create_line_based` collects from the document. -/
def Doc.lineCtx (doc : Doc) : LineCtx :=
  ⟨doc.level_map, nameMap ElemType.getName doc.wallTypes,
   nameMap ElemType.getName doc.beamTypes⟩

/-- Squared distance between two 3D points (the code compares
`sp.DistanceTo(ep) < 0.001`; both sides being nonnegative, we carry the
squared form `distSq < 0.001 ^ 2`, which is equivalent). -/
def distSq (a b : ℚ × ℚ × ℚ) : ℚ :=
  (a.1 - b.1) ^ 2 + (a.2.1 - b.2.1) ^ 2 + (a.2.2 - b.2.2) ^ 2

/-- `", ".join(sorted(keys)[:10])`. -/
def first10SortedKeys (ks : List String) : String :=
  String.intercalate ", " ((ks.mergeSort (fun a b => decide (a ≤ b))).take 10)

/-- Resolve the target level as the building loops do: a truthy `level_name`
is looked up in `level_map` (a miss lists the available level names); with no
name the first level of lowest elevation is used (`sorted(...)[0]`, which on
an empty dict raises the IndexError the per-item handler catches). -/
def resolveLevel (level_map : List (String × Level)) (level_name? : Option String) :
    Except String Level :=
  if truthyStr level_name? then
    let nm := level_name?.getD ""
    match level_map.lookup nm with
    | some lv => .ok lv
    | none => .error ("Level \x27" ++ nm ++ "\x27 not found. Available levels: " ++
                      joinSortedKeys (dictKeys level_map))
  else
    match firstMinByElevation (dictValues level_map) with
    | some lv => .ok lv
    | none => .error "list index out of range"

/-- Resolve an element type as the building loops do: a truthy `type_name` is
looked up in the type dict (`missMsg` builds the miss message), otherwise the
dict's first value is taken, and an empty dict yields `emptyMsg`. -/
def resolveType (tmap : List (String × ElemType)) (tn? : Option String)
    (missMsg : String → String) (emptyMsg : String) : Except String ElemType :=
  if truthyStr tn? then
    let nm := tn?.getD ""
    match tmap.lookup nm with
    | some t => .ok t
    | none => .error (missMsg nm)
  else
    match dictValues tmap with
    | t :: _ => .ok t
    | [] => .error emptyMsg

/-- The data a validated `/create_line/` item carries into host creation. -/
inductive LineKind where
  | wall (wallType : ElemType) (height_feet offset_feet : ℚ) (structural : Bool)
  | beam (beamType : ElemType)
deriving DecidableEq

/-- A validated `/create_line/` item. -/
structure LineOk where
  kind : LineKind
  level : Level
  name : String
deriving DecidableEq

/-- Extract the feet-converted XYZ of a required point dict: `p["x"]` and
`p["y"]` raise `KeyError` when absent (message `\x27x\x27`), `p.get("z", 0)`
defaults. -/
def xyzOf (p : Pt) : Except String (ℚ × ℚ × ℚ) :=
  match p.x? with
  | none => .error "\x27x\x27"
  | some x =>
    match p.y? with
    | none => .error "\x27y\x27"
    | some y => .ok (x / 304.8, y / 304.8, p.gz / 304.8)

/-- Validation of one `/create_line/` item, in the source's order:
`element_type` present, both points present, coordinates readable, non-zero
length, level resolved, then per-kind type resolution (an unsupported
`element_type` is rejected only after level resolution). -/
def lineCheck (ctx : LineCtx) (e : LineElem) : Except String LineOk :=
  if !truthyStr e.element_type? then .error "element_type is required"
  else if !truthyPt e.start_point? || !truthyPt e.end_point? then
    .error "start_point and end_point are required"
  else
    match xyzOf ((e.start_point?).getD Pt.empty) with
    | .error m => .error m
    | .ok sp =>
      match xyzOf ((e.end_point?).getD Pt.empty) with
      | .error m => .error m
      | .ok ep =>
        if distSq sp ep < (0.001 : ℚ) ^ 2 then
          .error "Start and end points must be different (zero-length element)"
        else
          match resolveLevel ctx.level_map e.level_name? with
          | .error m => .error m
          | .ok level =>
            let et := (e.element_type?).getD ""
            if et = "wall" then
              match resolveType ctx.wall_type_map e.type_name?
                  (fun nm => "Wall type \x27" ++ nm ++ "\x27 not found. Available types: " ++
                             first10SortedKeys (dictKeys ctx.wall_type_map))
                  "No wall types available — load wall families into the project" with
              | .error m => .error m
              | .ok wt =>
                let height_mm := (e.height?).getD 3000
                let offset_mm := (e.offset?).getD 0
                .ok ⟨.wall wt (height_mm / 304.8) (offset_mm / 304.8) e.structural,
                     level, (e.name?).getD ""⟩
            else if et = "beam" then
              match resolveType ctx.beam_type_map e.type_name?
                  (fun nm => "Beam type \x27" ++ nm ++ "\x27 not found. Available types: " ++
                             first10SortedKeys (dictKeys ctx.beam_type_map))
                  "No beam types available — load structural framing families" with
              | .error m => .error m
              | .ok bt => .ok ⟨.beam bt, level, (e.name?).getD ""⟩
            else
              .error ("element_type \x27" ++ et ++
                      "\x27 not supported — use \x27wall\x27 or \x27beam\x27")

/-- A freshly created model element as it enters the document's element
table (instance parameters such as Length are host-computed and not modelled). -/
def mkCreatedElem (id : ℤ) (cat bic : String) (tid lid : ℤ) (nm : String) : Elem :=
  { id := id, name := nm, category? := some cat, catType := "Model",
    builtinCat? := some bic, typeId? := some tid, levelId? := some lid,
    length? := none, height? := none, heightAboveLevel? := none,
    bboxMin? := none, bboxMax? := none, isType := false }

/-- Host creation for one validated `/create_line/` item: `DB.Wall.Create`,
or (after activating an inactive symbol) `NewFamilyInstance` for a beam;
build the response record. -/
def lineApply (doc : Doc) (k : LineOk) : Doc × J :=
  match k.kind with
  | .wall wt _ _ _ =>
      let elem := mkCreatedElem doc.nextId "Walls" "OST_Walls" wt.id k.level.id wt.name
      let doc' := { doc with elements := doc.elements ++ [elem],
                             nextId := doc.nextId + 1 }
      (doc', J.obj [("id", J.num (elem.id : ℚ)), ("name", J.str k.name),
                    ("type", J.str wt.getName), ("level", J.str k.level.getName),
                    ("element_type", J.str "wall")])
  | .beam bt =>
      let doc1 :=
        if bt.isActive then doc
        else { doc with beamTypes := (doc.beamTypes.map
                 (fun t => if t.id == bt.id then { t with isActive := true } else t)) }
      let elem := mkCreatedElem doc1.nextId "Structural Framing"
                    "OST_StructuralFraming" bt.id k.level.id bt.name
      let doc' := { doc1 with elements := doc1.elements ++ [elem],
                              nextId := doc1.nextId + 1 }
      (doc', J.obj [("id", J.num (elem.id : ℚ)), ("name", J.str k.name),
                    ("type", J.str bt.getName), ("level", J.str k.level.getName),
                    ("element_type", J.str "beam")])

/-- `POST /create_line/` (`building.py`, `create_line_based`). -/
def create_line_based (doc? : Option Doc) (req : CreateLineReq) : Out :=
  match doc? with
  | none =>
      noTx none (mkErr 503 "No active Revit document — open a project in Revit 2026")
  | some doc =>
      if req.elements.isEmpty then
        noTx (some doc) (mkErr 400 "No elements provided — pass an array of element definitions")
      else
        if doc.level_map.isEmpty then
          noTx (some doc) (mkErr 404 "No levels found in the project — create levels first")
        else
          let st := req.elements.enum.foldl
            (batchFold "Element" (lineCheck doc.lineCtx) lineApply) (doc, [], [])
          if doc.commitOk then
            ⟨ok200 (batchSuccessBody st.2.1 st.2.2 "element(s)"), some st.1, 1, 1, 0⟩
          else
            ⟨mkErr 500 ("Transaction failed: " ++ commitFailMsg), some doc, 1, 0, 1⟩

/-! ## `/create_surface/` — `building.py`, `create_surface_based` -/

/-- One entry of a `boundary` array: a dict that may carry point-format keys
(`x`, `y`, `z`) or segment-format keys (`p0`, `p1`). -/
structure BEntry where
  x? : Option ℚ
  y? : Option ℚ
  z? : Option ℚ
  p0? : Option Pt
  p1? : Option Pt
deriving DecidableEq, Inhabited

/-- Read a boundary entry as a point. -/
def BEntry.pt (e : BEntry) : Pt := ⟨e.x?, e.y?, e.z?⟩

/-- A boundary entry normalized to segment form. -/
structure Seg where
  p0 : Pt
  p1 : Pt
deriving DecidableEq, Inhabited

/-- The BUG-007 auto-detection in `create_surface_based`:
`"x" in boundary[0] or "y" in boundary[0]`. -/
def detectPointFormat : List BEntry → Bool
  | [] => false
  | e :: _ => e.x?.isSome || e.y?.isSome

/-- Normalize a boundary: in point format, point `i` is joined to point
`(i + 1) % n` for every `i < n`; in segment format each entry's `p0`/`p1`
are read with `.get(..., {})`. -/
def normalizeBoundary (b : List BEntry) : List Seg :=
  if detectPointFormat b then
    let n := b.length
    (List.range n).map (fun i =>
      ⟨(b.getD i default).pt, (b.getD ((i + 1) % n) default).pt⟩)
  else
    b.map (fun e => ⟨e.p0?.getD Pt.empty, e.p1?.getD Pt.empty⟩)

/-- The squared gap of the closed-polygon check: distance (here squared)
between `boundary[0]["p0"]` and `boundary[-1]["p1"]`, taken on the raw
millimetre coordinates with `.get(..., 0)` defaults. -/
def closedGapSq (segs : List Seg) : ℚ :=
  let fp := (segs.headD default).p0
  let lp := (segs.getLastD default).p1
  (fp.gx - lp.gx) ^ 2 + (fp.gy - lp.gy) ^ 2 + (fp.gz - lp.gz) ^ 2

/-- The closed-polygon rejection: the source compares
`dist > 1.0` with `dist = closedGapSq ** 0.5`; both sides being nonnegative
this is equivalent to `closedGapSq > 1`. -/
def closedPolyRejects (segs : List Seg) : Bool := decide (1 < closedGapSq segs)

/-- One entry of the `elements` array of a `/create_surface/` request. -/
structure SurfaceElem where
  element_type? : Option String
  boundary : List BEntry
  level_name? : Option String
  type_name? : Option String
  name? : Option String
  offset? : Option ℚ
deriving DecidableEq

/-- Body of a `/create_surface/` request. -/
structure CreateSurfaceReq where
  elements : List SurfaceElem
deriving DecidableEq

/-- The name-keyed dicts `create_surface_based` builds before its loop. -/
structure SurfCtx where
  level_map : List (String × Level)
  floor_type_map : List (String × ElemType)
  roof_type_map : List (String × ElemType)

/-- The dicts `create_surface_based` collects from the document. -/
def Doc.surfCtx (doc : Doc) : SurfCtx :=
  ⟨doc.level_map, nameMap ElemType.getName doc.floorTypes,
   nameMap ElemType.getName doc.roofTypes⟩

/-- A validated `/create_surface/` item: a floor or ceiling (both go through
`DB.Floor.Create` with a floor type) or a roof. -/
inductive SurfOk where
  | floorish (kind : String) (segs : List Seg) (floorType : ElemType)
      (level : Level) (offset_mm : ℚ) (name : String)
  | roof (segs : List Seg) (roofType : ElemType) (level : Level) (name : String)
deriving DecidableEq

/-- Validation of one `/create_surface/` item, in the source's order:
`element_type` present and supported, at least 3 boundary entries, format
normalization, closed-polygon check, level resolution, type resolution. -/
def surfaceCheck (ctx : SurfCtx) (e : SurfaceElem) : Except String SurfOk :=
  if !truthyStr e.element_type? then .error "element_type is required"
  else
    let et := (e.element_type?).getD ""
    if et ≠ "floor" ∧ et ≠ "roof" ∧ et ≠ "ceiling" then
      .error "element_type must be \x27floor\x27, \x27roof\x27, or \x27ceiling\x27"
    else if e.boundary.length < 3 then
      .error ("Boundary requires at least 3 points/segments, got " ++
              toString e.boundary.length)
    else
      let segs := normalizeBoundary e.boundary
      if closedPolyRejects segs then
        let fp := (segs.headD default).p0
        let lp := (segs.getLastD default).p1
        .error ("Boundary must form a closed polygon — last point (" ++
                toString lp.gx ++ ", " ++ toString lp.gy ++ ", " ++ toString lp.gz ++
                ") does not match first point (" ++
                toString fp.gx ++ ", " ++ toString fp.gy ++ ", " ++ toString fp.gz ++ ")")
      else
        match resolveLevel ctx.level_map e.level_name? with
        | .error m => .error m
        | .ok level =>
          if et = "floor" ∨ et = "ceiling" then
            match resolveType ctx.floor_type_map e.type_name?
                (fun nm => "Floor type \x27" ++ nm ++ "\x27 not found. Available: " ++
                           first10SortedKeys (dictKeys ctx.floor_type_map))
                "No floor types available — load floor families" with
            | .error m => .error m
            | .ok ft =>
                .ok (.floorish et (normalizeBoundary e.boundary) ft level
                      ((e.offset?).getD 0) ((e.name?).getD ""))
          else
            match resolveType ctx.roof_type_map e.type_name?
                (fun nm => "Roof type \x27" ++ nm ++ "\x27 not found. Available: " ++
                           first10SortedKeys (dictKeys ctx.roof_type_map))
                "No roof types available — load roof families" with
            | .error m => .error m
            | .ok rt =>
                .ok (.roof (normalizeBoundary e.boundary) rt level ((e.name?).getD ""))

/-- Host creation for one validated `/create_surface/` item:
`DB.Floor.Create` (floors and ceilings, with the optional
`FLOOR_HEIGHTABOVELEVEL_PARAM` write) or `NewFootPrintRoof`; build the
response record. -/
def surfaceApply (doc : Doc) (k : SurfOk) : Doc × J :=
  match k with
  | .floorish kind _ ft level offset_mm nm =>
      let elem0 := mkCreatedElem doc.nextId "Floors" "OST_Floors" ft.id level.id ft.name
      let elem := if offset_mm ≠ 0
        then { elem0 with heightAboveLevel? := some (offset_mm / 304.8) }
        else elem0
      let doc' := { doc with elements := doc.elements ++ [elem],
                             nextId := doc.nextId + 1 }
      (doc', J.obj [("id", J.num (elem.id : ℚ)), ("name", J.str nm),
                    ("type", J.str ft.getName), ("level", J.str level.getName),
                    ("element_type", J.str kind)])
  | .roof _ rt level nm =>
      let elem := mkCreatedElem doc.nextId "Roofs" "OST_Roofs" rt.id level.id rt.name
      let doc' := { doc with elements := doc.elements ++ [elem],
                             nextId := doc.nextId + 1 }
      (doc', J.obj [("id", J.num (elem.id : ℚ)), ("name", J.str nm),
                    ("type", J.str rt.getName), ("level", J.str level.getName),
                    ("element_type", J.str "roof")])

/-- `POST /create_surface/` (`building.py`, `create_surface_based`). -/
def create_surface_based (doc? : Option Doc) (req : CreateSurfaceReq) : Out :=
  match doc? with
  | none =>
      noTx none (mkErr 503 "No active Revit document — open a project in Revit 2026")
  | some doc =>
      if req.elements.isEmpty then
        noTx (some doc) (mkErr 400 "No elements provided — pass an array of element definitions")
      else
        if doc.level_map.isEmpty then
          noTx (some doc) (mkErr 404 "No levels found — create levels first")
        else
          let st := req.elements.enum.foldl
            (batchFold "Element" (surfaceCheck doc.surfCtx) surfaceApply) (doc, [], [])
          if doc.commitOk then
            ⟨ok200 (batchSuccessBody st.2.1 st.2.2 "element(s)"), some st.1, 1, 1, 0⟩
          else
            ⟨mkErr 500 ("Transaction failed: " ++ commitFailMsg), some doc, 1, 0, 1⟩

/-! ## `/delete_elements/` — `editing.py`, `delete_elements_handler` -/

/-- Body of a `/delete_elements/` request (`none` models a request with no
data, `request.data` falsy). -/
structure DeleteReq where
  element_ids : List ℤ
deriving DecidableEq

/-- `doc.GetElement(elem_id)` on the element table. -/
def Doc.getElement? (doc : Doc) (id : ℤ) : Option Elem :=
  doc.elements.find? (fun e => e.id == id)

/-- `doc.Delete(elem_id)`: on an existing element the host removes it and
its dependents (`deleteCascade`), returning the ids it removed (the primary
id included); on a stale id it raises. -/
def hostDelete (doc : Doc) (id : ℤ) : Except String (Doc × List ℤ) :=
  if (doc.getElement? id).isSome then
    let removed := (id :: doc.deleteCascade id).dedup
    .ok ({ doc with elements := doc.elements.filter (fun e => !removed.contains e.id) },
         removed)
  else
    .error ("ElementId " ++ toString id ++ " is not valid for deletion")

/-- The deletion loop of `delete_elements_handler`: each primary id is
deleted, appended to `deleted`, and the host's removed ids other than the
current primary are appended (deduplicated) to `cascaded`. -/
def deleteLoop (doc : Doc) (ids deleted cascaded : List ℤ) :
    Except String (Doc × List ℤ × List ℤ) :=
  match ids with
  | [] => .ok (doc, deleted, cascaded)
  | id :: rest =>
    match hostDelete doc id with
    | .error m => .error m
    | .ok dr =>
      let deleted' := deleted ++ [id]
      let cascaded' := dr.2.foldl
        (fun cs d => if d != id && !cs.contains d then cs ++ [d] else cs) cascaded
      deleteLoop dr.1 rest deleted' cascaded'

/-- All ids the host reports removed over the whole request (the
concatenation of the per-primary `doc.Delete` results, threading the
document), for stating what `cascaded_ids` contains. -/
def deleteRemovedAll (doc : Doc) (ids : List ℤ) : List ℤ :=
  match ids with
  | [] => []
  | id :: rest =>
    match hostDelete doc id with
    | .error _ => []
    | .ok dr => dr.2 ++ deleteRemovedAll dr.1 rest

/-- The success message of `/delete_elements/`. -/
def deleteMessage (deleted cascaded : List ℤ) : String :=
  let base := "Deleted " ++ toString deleted.length ++ " element" ++
              (if deleted.length ≠ 1 then "s" else "")
  if cascaded.isEmpty then base
  else base ++ " (" ++ toString cascaded.length ++ " hosted element" ++
       (if cascaded.length ≠ 1 then "s" else "") ++ " also removed)"

/-- The success envelope of `/delete_elements/`. -/
def deleteSuccessBody (deleted cascaded : List ℤ) : J :=
  J.obj [("status", J.str "success"),
         ("deleted_count", J.num (deleted.length : ℚ)),
         ("deleted_ids", J.arr (deleted.map (fun i => J.num (i : ℚ)))),
         ("cascaded_ids", J.arr (cascaded.map (fun i => J.num (i : ℚ)))),
         ("message", J.str (deleteMessage deleted cascaded))]

/-- `POST /delete_elements/` (`editing.py`, `delete_elements_handler`). -/
def delete_elements_handler (doc? : Option Doc) (req? : Option DeleteReq) : Out :=
  match doc? with
  | none => noTx none (mkErr 503 "No active Revit document")
  | some doc =>
    match req? with
    | none => noTx (some doc) (mkErr 400 "No data provided")
    | some req =>
      if req.element_ids.isEmpty then
        noTx (some doc) (mkErr 400 "No element_ids provided")
      else
        match req.element_ids.find? (fun id => (doc.getElement? id).isNone) with
        | some missing =>
            noTx (some doc)
              (mkErr 404 ("Element " ++ toString missing ++ " not found in the active model"))
        | none =>
          match deleteLoop doc req.element_ids [] [] with
          | .ok res =>
            if doc.commitOk then
              ⟨ok200 (deleteSuccessBody res.2.1
                 (res.2.2.filter (fun cid => !res.2.1.contains cid))),
               some res.1, 1, 1, 0⟩
            else
              ⟨⟨500, J.obj [("error", J.str commitFailMsg),
                            ("traceback", J.str (pyTraceback commitFailMsg))]⟩,
               some doc, 1, 0, 1⟩
          | .error m =>
              ⟨⟨500, J.obj [("error", J.str m),
                            ("traceback", J.str (pyTraceback m))]⟩,
               some doc, 1, 0, 1⟩

/-! ## `/create_room/` — `rooms.py`, `create_room_handler` -/

/-- Body of a `/create_room/` request. -/
structure CreateRoomReq where
  level_name? : Option String
  location? : Option Pt
  name? : Option String
  number? : Option String
deriving DecidableEq

/-- The success envelope of `/create_room/`. -/
def createRoomSuccessBody (room_id : ℚ) (actual_name actual_number level_name : String)
    (area : ℚ) (label : String) : J :=
  J.obj [("status", J.str "success"),
         ("room_id", J.num room_id),
         ("name", J.str actual_name),
         ("number", J.str actual_number),
         ("level", J.str level_name),
         ("area", J.num area),
         ("message", J.str ("Room \x27" ++ label ++ "\x27 created on level \x27" ++
                            level_name ++ "\x27"))]

/-- `POST /create_room/` (`rooms.py`, `create_room_handler`).  The converted
location `(x * MM_TO_FEET, y * MM_TO_FEET)` is handed to the host's
`NewRoom(level, UV(x, y))`, whose success is the host behaviour
`doc.newRoomAt`; the created room's `Area` parameter is `doc.newRoomArea?`
and the response converts it with `0.092903` (`rooms.py` line 112). -/
def create_room_handler (doc? : Option Doc) (req : CreateRoomReq) : Out :=
  match doc? with
  | none => noTx none (mkErr 503 "No active Revit document")
  | some doc =>
    if !truthyStr req.level_name? then
      noTx (some doc) (mkErr 400 "level_name is required")
    else
      let level_name := req.level_name?.getD ""
      match doc.levels.find? (fun lv => lv.getName == level_name) with
      | none =>
          noTx (some doc)
            ⟨404, J.obj [("error", J.str ("Level \x27" ++ level_name ++ "\x27 not found")),
                         ("available_levels",
                          J.arr (doc.levels.map (fun lv => J.str lv.getName)))]⟩
      | some target_level =>
        if doc.phases == 0 then
          noTx (some doc) (mkErr 500 "No phases found in the project")
        else
          let placed := truthyPt req.location?
          let loc := req.location?.getD Pt.empty
          let roomCreated :=
            if placed then doc.newRoomAt (loc.gx * MM_TO_FEET, loc.gy * MM_TO_FEET)
            else true
          if !roomCreated then
            ⟨mkErr 500 ("Failed to create room — no enclosed area found at the " ++
                        "specified location. Add walls or room separation lines first."),
             some doc, 1, 0, 1⟩
          else if doc.commitOk then
            let room : Room :=
              { id := doc.nextId,
                name? := if truthyStr req.name? then some (req.name?.getD "") else none,
                number? := if truthyStr req.number? then some (req.number?.getD "") else none,
                levelId? := if placed then some target_level.id else none,
                area? := doc.newRoomArea?,
                perimeter? := none, department? := none, placed := placed }
            let doc' := { doc with rooms := doc.rooms ++ [room],
                                   nextId := doc.nextId + 1 }
            let area : ℚ :=
              match doc.newRoomArea? with
              | some a => pyRound 2 (a * (0.092903 : ℚ))
              | none => 0
            let actual_name := (room.name?).getD ""
            let actual_number := (room.number?).getD ""
            let label :=
              if !actual_name.isEmpty then actual_name
              else if !actual_number.isEmpty then actual_number
              else "Unnamed"
            ⟨ok200 (createRoomSuccessBody (room.id : ℚ) actual_name actual_number
                      level_name area label),
             some doc', 1, 1, 0⟩
          else
            ⟨⟨500, J.obj [("error", J.str commitFailMsg),
                          ("traceback", J.str (pyTraceback commitFailMsg))]⟩,
             some doc, 1, 0, 1⟩

/-! ## `/room_data/` — `analysis.py`, `export_room_data_handler` -/

/-- The per-room record built by `/room_data/`: fixed keys, with areas
converted by `SQFT_TO_SQM`, perimeters converted back to millimetres, and
strings normalized. -/
def roomEntry (doc : Doc) (room : Room) : J :=
  let name := normalize_string ((room.name?).getD "")
  let number := normalize_string ((room.number?).getD "")
  let level :=
    match room.levelId? with
    | some lid =>
        if lid != -1 then
          match doc.levels.find? (fun lv => lv.id == lid) with
          | some lv => lv.getName
          | none => ""
        else ""
    | none => ""
  let area_sqm : ℚ :=
    match room.area? with
    | some a => pyRound 2 (a * SQFT_TO_SQM)
    | none => 0
  let perimeter_mm : ℚ :=
    match room.perimeter? with
    | some p => pyRound 0 (p / MM_TO_FEET)
    | none => 0
  J.obj [("id", J.num (room.id : ℚ)), ("name", J.str name),
         ("number", J.str number), ("level", J.str level),
         ("area_sqm", J.num area_sqm), ("perimeter_mm", J.num perimeter_mm),
         ("department", J.str (normalize_string ((room.department?).getD "")))]

/-- The success envelope of `/room_data/`. -/
def roomDataSuccessBody (rooms : List J) : J :=
  J.obj [("status", J.str "success"),
         ("rooms", J.arr rooms),
         ("count", J.num (rooms.length : ℚ)),
         ("message", J.str ("Exported data for " ++ toString rooms.length ++ " room" ++
                            (if rooms.length ≠ 1 then "s" else "")))]

/-- `GET /room_data/` (`analysis.py`, `export_room_data_handler`): unplaced
rooms (no `Location`) are skipped. -/
def export_room_data_handler (doc? : Option Doc) : Out :=
  match doc? with
  | none => noTx none (mkErr 503 "No active Revit document")
  | some doc =>
    let rooms := (doc.rooms.filter (·.placed)).map (roomEntry doc)
    noTx (some doc) (ok200 (roomDataSuccessBody rooms))

/-! ## `/ai_filter/` — `analysis.py`, `ai_element_filter_handler` -/

/-- The `DB.BuiltInCategory` member names the model knows (`getattr`
succeeds exactly on these). -/
def builtinCategories : List String :=
  ["OST_Walls", "OST_Doors", "OST_Windows", "OST_Floors", "OST_Roofs",
   "OST_Ceilings", "OST_Levels", "OST_Rooms", "OST_StructuralColumns",
   "OST_StructuralFraming"]

/-- Body of an `/ai_filter/` request (defaults already applied:
`visible_in_view` defaults to `False`, `max_elements` to 50). -/
structure AiFilterReq where
  category? : Option String
  type_name? : Option String
  visible_in_view : Bool
  bbox_min? : Option Pt
  bbox_max? : Option Pt
  max_elements : ℕ
deriving DecidableEq

/-- Axis-aligned box intersection, the semantics of
`DB.BoundingBoxIntersectsFilter` on an element with a bounding box. -/
def boxesIntersect (amin amax bmin bmax : ℚ × ℚ × ℚ) : Bool :=
  decide (amin.1 ≤ bmax.1) && decide (bmin.1 ≤ amax.1) &&
  decide (amin.2.1 ≤ bmax.2.1) && decide (bmin.2.1 ≤ amax.2.1) &&
  decide (amin.2.2 ≤ bmax.2.2) && decide (bmin.2.2 ≤ amax.2.2)

/-- Whether an element passes the bounding-box filter (elements without a
bounding box are excluded by the host filter). -/
def elemPassesBBox (e : Elem) (mn mx : ℚ × ℚ × ℚ) : Bool :=
  match e.bboxMin?, e.bboxMax? with
  | some emin, some emax => boxesIntersect emin emax mn mx
  | _, _ => false

/-- The type-name partial match of `/ai_filter/`: case-insensitive substring
on the element name, falling back to the name of its type element. -/
def typeMatches (doc : Doc) (tn? : Option String) (e : Elem) : Bool :=
  if !truthyStr tn? then true
  else
    let needle := (tn?.getD "").toLower
    if pyContains e.getName.toLower needle then true
    else
      match e.typeId? with
      | some tid =>
          if tid != -1 then
            match doc.getElement? tid with
            | some te => pyContains te.getName.toLower needle
            | none => false
          else false
      | none => false

/-- The per-element record built by `/ai_filter/`: `id`, `category`, `type`
always; `level`, `length_mm`, `height_mm` when available (lengths read back
through `MM_TO_FEET` and rounded to 0 decimals). -/
def elemInfo (doc : Doc) (e : Elem) : J :=
  let base := [("id", J.num (e.id : ℚ)),
               ("category", J.str ((e.category?).getD "Unknown")),
               ("type", J.str e.getName)]
  let levelPart :=
    match e.levelId? with
    | some lid =>
        if lid != -1 then
          match doc.levels.find? (fun lv => lv.id == lid) with
          | some lv => [("level", J.str lv.getName)]
          | none => []
        else []
    | none => []
  let lengthPart :=
    match e.length? with
    | some l => [("length_mm", J.num (pyRound 0 (l / MM_TO_FEET)))]
    | none => []
  let heightPart :=
    match e.height? with
    | some h => [("height_mm", J.num (pyRound 0 (h / MM_TO_FEET)))]
    | none => []
  J.obj (base ++ levelPart ++ lengthPart ++ heightPart)

/-- The success envelope of `/ai_filter/`. -/
def aiFilterSuccessBody (elements : List J) (total : ℕ) (cat_label : String) : J :=
  J.obj [("status", J.str "success"),
         ("elements", J.arr elements),
         ("count", J.num (elements.length : ℚ)),
         ("total_matched", J.num (total : ℚ)),
         ("message", J.str ("Found " ++ toString total ++ " " ++ cat_label ++
                            (if total ≠ 1 then "s" else "") ++ " matching filters"))]

/-- `POST /ai_filter/` (`analysis.py`, `ai_element_filter_handler`). -/
def ai_element_filter_handler (doc? : Option Doc) (req : AiFilterReq) : Out :=
  match doc? with
  | none => noTx none (mkErr 503 "No active Revit document")
  | some doc =>
    let collected : Except Resp (List Elem) :=
      if req.visible_in_view then
        match doc.activeView? with
        | none => .error (mkErr 400 "No active view for visibility filter")
        | some v =>
          if v.viewType = "Schedule" ∨ v.viewType = "Internal" ∨
             v.viewType = "DrawingSheet" then
            .error (mkErr 400 ("Current view type \x27" ++ v.viewType ++
              "\x27 does not support element filtering â€” switch to a plan, section, or 3D view"))
          else
            .ok (doc.elements.filter (fun e => v.visibleIds.contains e.id))
      else .ok doc.elements
    match collected with
    | .error r => noTx (some doc) r
    | .ok base =>
      let afterCat : Except Resp (List Elem) :=
        if truthyStr req.category? then
          let cat := req.category?.getD ""
          if builtinCategories.contains cat then
            .ok (base.filter (fun e => e.builtinCat? == some cat))
          else
            .error (mkErr 400 ("Invalid category: " ++ cat ++
                               ". Use BuiltInCategory names like OST_Walls, OST_Doors"))
        else .ok base
      match afterCat with
      | .error r => noTx (some doc) r
      | .ok cs =>
        let notTypes := cs.filter (fun e => !e.isType)
        let all_elements :=
          if truthyPt req.bbox_min? && truthyPt req.bbox_max? then
            let mnp := req.bbox_min?.getD Pt.empty
            let mxp := req.bbox_max?.getD Pt.empty
            let mn := (mnp.gx * MM_TO_FEET, mnp.gy * MM_TO_FEET, mnp.gz * MM_TO_FEET)
            let mx := (mxp.gx * MM_TO_FEET, mxp.gy * MM_TO_FEET, mxp.gz * MM_TO_FEET)
            notTypes.filter (fun e => elemPassesBBox e mn mx)
          else notTypes
        let elements := all_elements.foldl
          (fun acc e =>
            if acc.length ≥ req.max_elements then acc
            else if typeMatches doc req.type_name? e then acc ++ [elemInfo doc e]
            else acc) []
        let cat_label :=
          if truthyStr req.category? then
            (((req.category?).getD "").replace "OST_" "").toLower
          else "element"
        noTx (some doc) (ok200 (aiFilterSuccessBody elements all_elements.length cat_label))

/-! ## `/execute_code/` — `code_execution.py`, `execute_code` -/

/-- Body of an `/execute_code/` request (defaults applied: `code` defaults
to `""`, `description` to `"Code execution"`). -/
structure ExecReq where
  code : String
  description : String
deriving DecidableEq

/-- The hint strings `execute_code` attaches to common error shapes. -/
def execHints (errType msg : String) : List String :=
  if errType == "AttributeError" then
    if msg == "Name" || pyContains msg "Name" then
      ["The \x27Name\x27 property may not be directly accessible in IronPython. " ++
       "Try using getattr(element, \x27Name\x27, \x27N/A\x27) or " ++
       "element.get_Parameter(DB.BuiltInParameter.ALL_MODEL_TYPE_NAME).AsString()"]
    else
      ["Some Revit API properties are not directly accessible in IronPython. " ++
       "Try using getattr(obj, \x27property_name\x27, default_value) for safe access."]
  else if errType == "NullReferenceException" || pyContains msg "NoneType" then
    ["An object is None/null. Ensure you check if elements exist before " ++
     "accessing their properties: \x27if element:\x27 or \x27if element is not None:\x27"]
  else if errType == "InvalidOperationException" then
    ["This operation may require being inside a transaction, or the element " ++
     "may be in a state that doesn\x27t allow this operation."]
  else if pyContains msg "Transaction" || pyContains msg "transaction" then
    ["Transaction error. Note that this endpoint already wraps your code " ++
     "in a transaction. Avoid starting nested transactions."]
  else []

/-- Host message of `DB.Transaction(None, ...)` (`str(e)` of the
ArgumentNullException raised on a null document). -/
def nullDocMsg : String := "Value cannot be null."

/-- The 200 success body of `/execute_code/` — note: no `message` field. -/
def execSuccessBody (description output code : String) : J :=
  J.obj [("status", J.str "success"),
         ("description", J.str description),
         ("output", J.str output),
         ("code_executed", J.str code)]

/-- The 500 error body of a failed `/execute_code/` execution. -/
def execFailBody (code errType msg partialOut : String) : J :=
  J.obj ([("status", J.str "error"),
          ("error", J.str (errType ++ ": " ++ msg)),
          ("error_type", J.str errType),
          ("traceback", J.str (pyTraceback msg)),
          ("code_attempted", J.str code)] ++
         (if partialOut.isEmpty then [] else [("partial_output", J.str partialOut)]) ++
         (match execHints errType msg with
          | [] => []
          | hs => [("hints", J.arr (hs.map J.str))]))

/-- `POST /execute_code/` (`code_execution.py`, `execute_code`).  This is
the one route with no `if not doc` guard: with no active document the
`DB.Transaction(doc, ...)` constructor raises and the outer handler answers
500 with only an `error` field.  Model mutations performed by the executed
code are not represented (`execRun` only reports the host outcome). -/
def execute_code (doc? : Option Doc) (req : ExecReq) : Out :=
  if req.code.isEmpty then noTx doc? (mkErr 400 "No code provided")
  else
    match doc? with
    | none => noTx none (mkErr 500 nullDocMsg)
    | some doc =>
      match doc.execRun req.code with
      | .ok output =>
        if doc.commitOk then
          ⟨ok200 (execSuccessBody req.description
             (if output.isEmpty then "Code executed successfully (no output)" else output)
             req.code),
           some doc, 1, 1, 0⟩
        else
          ⟨⟨500, execFailBody req.code "InvalidOperationException" commitFailMsg output⟩,
           some doc, 1, 0, 1⟩
      | .fail errType msg partialOut =>
          ⟨⟨500, execFailBody req.code errType msg partialOut⟩, some doc, 1, 0, 1⟩

/-! ## `/create_grid/` and `/create_framing/` — `structure.py`

These two are also batch-creation routes, but unlike the `building.py`
routes they keep no `errors` array: an invalid (zero-length) definition is
skipped with only a `logger.warning(...)` and `continue`, and the success
envelope carries just `created`/`count`/`message`. -/

/-- One entry of the `grids` array of a `/create_grid/` request
(`grid_def.get("start_point", {})` defaults missing points to `{}`). -/
structure GridDef where
  start_point? : Option Pt
  end_point? : Option Pt
  name? : Option String
deriving DecidableEq

/-- Body of a `/create_grid/` request. -/
structure CreateGridReq where
  grids : List GridDef
deriving DecidableEq

/-- The feet-converted XYZ of an optional point dict, with `.get(..., 0)`
coordinate defaults (`structure.py` style: never raises). -/
def skipXYZ (p? : Option Pt) : ℚ × ℚ × ℚ :=
  let p := p?.getD Pt.empty
  (p.gx * MM_TO_FEET, p.gy * MM_TO_FEET, p.gz * MM_TO_FEET)

/-- The only per-item validation of `/create_grid/`: the zero-length check
`length < 0.001` (`structure.py` line 68); an invalid item is skipped with a
log warning, recording nothing in the response. -/
def gridDefValid (gd : GridDef) : Bool :=
  !(decide (distSq (skipXYZ gd.start_point?) (skipXYZ gd.end_point?) < (0.001 : ℚ) ^ 2))

/-- The zero-length check of `/create_framing/` (`structure.py` line 188) —
likewise a silent skip. -/
structure FramingDef where
  start_point? : Option Pt
  end_point? : Option Pt
  type_name? : Option String
  level_name? : Option String
  name? : Option String
deriving DecidableEq

/-- Body of a `/create_framing/` request. -/
structure CreateFramingReq where
  elements : List FramingDef
deriving DecidableEq

/-- Per-item validation of `/create_framing/`: only the zero-length check. -/
def framingDefValid (fd : FramingDef) : Bool :=
  !(decide (distSq (skipXYZ fd.start_point?) (skipXYZ fd.end_point?) < (0.001 : ℚ) ^ 2))

/-- A freshly created grid element (`DB.Grid.Create`). -/
def mkGridElem (id : ℤ) (nm : String) : Elem :=
  { id := id, name := nm, category? := some "Grids", catType := "Annotation",
    builtinCat? := some "OST_Grids", typeId? := none, levelId? := none,
    length? := none, height? := none, heightAboveLevel? := none,
    bboxMin? := none, bboxMax? := none, isType := false }

/-- Host creation for one valid `/create_grid/` item: `DB.Grid.Create`
(which assigns a host default name), the optional `grid.Name = name`
rename, and the response record (`id`, `name`). -/
def gridApply (doc : Doc) (gd : GridDef) : Doc × J :=
  let hostName := toString doc.nextId
  let finalName :=
    match gd.name? with
    | some n => if n.isEmpty then hostName else n
    | none => hostName
  let elem := mkGridElem doc.nextId finalName
  let doc' := { doc with elements := doc.elements ++ [elem],
                         nextId := doc.nextId + 1 }
  (doc', J.obj [("id", J.num (elem.id : ℚ)),
                ("name", J.str (sanitize_string finalName))])

/-- Host creation for one valid `/create_framing/` item: resolve the symbol
(by linear scan, falling back to the first symbol — its non-emptiness is the
handler's 404 guard), resolve the level (falling back to the first level, or
none at all), activate the symbol, `NewFamilyInstance`. -/
def framingApply (doc : Doc) (fd : FramingDef) : Doc × J :=
  let scannedSym :=
    if truthyStr fd.type_name? then
      doc.beamTypes.find? (fun s => s.getName == fd.type_name?.getD "")
    else none
  let target_symbol := scannedSym.getD (doc.beamTypes.headD ⟨0, "", true⟩)
  let scannedLv :=
    if truthyStr fd.level_name? then
      doc.levels.find? (fun lv => lv.getName == fd.level_name?.getD "")
    else none
  let target_level? :=
    match scannedLv with
    | some lv => some lv
    | none => doc.levels.head?
  let doc1 :=
    if target_symbol.isActive then doc
    else { doc with beamTypes := (doc.beamTypes.map
             (fun t => if t.id == target_symbol.id then { t with isActive := true } else t)) }
  let elem : Elem :=
    { id := doc1.nextId, name := target_symbol.name,
      category? := some "Structural Framing", catType := "Model",
      builtinCat? := some "OST_StructuralFraming", typeId? := some target_symbol.id,
      levelId? := target_level?.map (·.id), length? := none, height? := none,
      heightAboveLevel? := none, bboxMin? := none, bboxMax? := none, isType := false }
  let doc' := { doc1 with elements := doc1.elements ++ [elem],
                          nextId := doc1.nextId + 1 }
  (doc', J.obj [("id", J.num (elem.id : ℚ)),
                ("name", J.str (fd.name?.getD "")),
                ("type", J.str target_symbol.getName),
                ("level", J.str (match target_level? with
                                 | some lv => lv.getName
                                 | none => "Unknown"))])

/-- The common loop body of the two `structure.py` batch handlers: a valid
item is created and recorded, an invalid one is skipped with only a log
warning — no error entry of any kind. -/
def skipFold {α : Type} (valid : α → Bool) (apply : Doc → α → Doc × J)
    (st : Doc × List J) (x : α) : Doc × List J :=
  if valid x then
    let dk := apply st.1 x
    (dk.1, st.2 ++ [dk.2])
  else st

/-- The success envelope of `/create_grid/` — no `errors` key, ever. -/
def gridSuccessBody (created : List J) : J :=
  J.obj [("status", J.str "success"),
         ("created", J.arr created),
         ("count", J.num (created.length : ℚ)),
         ("message", J.str ("Created " ++ toString created.length ++ " grid line" ++
                            (if created.length ≠ 1 then "s" else "")))]

/-- The success envelope of `/create_framing/` — no `errors` key, ever. -/
def framingSuccessBody (created : List J) : J :=
  let level_msg :=
    match created.head? with
    | some e =>
        match e.get "level" with
        | some (J.str s) => if s.isEmpty then "" else " on " ++ s
        | _ => ""
    | none => ""
  J.obj [("status", J.str "success"),
         ("created", J.arr created),
         ("count", J.num (created.length : ℚ)),
         ("message", J.str ("Created " ++ toString created.length ++
                            " structural framing element" ++
                            (if created.length ≠ 1 then "s" else "") ++ level_msg))]

/-- `POST /create_grid/` (`structure.py`, `create_grid_handler`). -/
def create_grid_handler (doc? : Option Doc) (req? : Option CreateGridReq) : Out :=
  match doc? with
  | none => noTx none (mkErr 503 "No active Revit document")
  | some doc =>
    match req? with
    | none => noTx (some doc) (mkErr 400 "No data provided")
    | some req =>
      if req.grids.isEmpty then
        noTx (some doc) (mkErr 400 "No grids provided")
      else
        let st := req.grids.foldl (skipFold gridDefValid gridApply) (doc, [])
        if doc.commitOk then
          ⟨ok200 (gridSuccessBody st.2), some st.1, 1, 1, 0⟩
        else
          ⟨⟨500, J.obj [("error", J.str commitFailMsg),
                        ("traceback", J.str (pyTraceback commitFailMsg))]⟩,
           some doc, 1, 0, 1⟩

/-- `POST /create_framing/` (`structure.py`, `create_framing_handler`). -/
def create_framing_handler (doc? : Option Doc) (req? : Option CreateFramingReq) : Out :=
  match doc? with
  | none => noTx none (mkErr 503 "No active Revit document")
  | some doc =>
    match req? with
    | none => noTx (some doc) (mkErr 400 "No data provided")
    | some req =>
      if req.elements.isEmpty then
        noTx (some doc) (mkErr 400 "No elements provided")
      else if doc.beamTypes.isEmpty then
        noTx (some doc)
          (mkErr 404 "No structural framing types found — load beam families into the project")
      else
        let st := req.elements.foldl (skipFold framingDefValid framingApply) (doc, [])
        if doc.commitOk then
          ⟨ok200 (framingSuccessBody st.2), some st.1, 1, 1, 0⟩
        else
          ⟨⟨500, J.obj [("error", J.str commitFailMsg),
                        ("traceback", J.str (pyTraceback commitFailMsg))]⟩,
           some doc, 1, 0, 1⟩

/-! ## Helper lemmas -/

theorem J.get_cons_self (k : String) (v : J) (fs : List (String × J)) :
    (J.obj ((k, v) :: fs)).get k = some v := by
  simp [J.get, List.lookup]

theorem J.get_cons_of_ne (k1 k2 : String) (v : J) (fs : List (String × J))
    (h : (k2 == k1) = false) : (J.obj ((k1, v) :: fs)).get k2 = (J.obj fs).get k2 := by
  simp [J.get, List.lookup, h]

/-- The length of the array stored at key `k`, when there is one. -/
def jArrLen? (b : J) (k : String) : Option ℕ :=
  match b.get k with
  | some (J.arr es) => some es.length
  | _ => none

/-- The length of the `errors` array of a response body; a body with no
`errors` key (the handlers omit it when no item failed) counts as 0. -/
def errorsLen (b : J) : ℕ := (jArrLen? b "errors").getD 0

theorem batchSuccessBody_status (c : List J) (e : List String) (n : String) :
    (batchSuccessBody c e n).get "status" = some (J.str "success") := by
  simp only [batchSuccessBody, List.cons_append]
  exact J.get_cons_self _ _ _

theorem batchSuccessBody_created (c : List J) (e : List String) (n : String) :
    (batchSuccessBody c e n).get "created" = some (J.arr c) := by
  simp only [batchSuccessBody, List.cons_append]
  rw [J.get_cons_of_ne _ _ _ _ (by decide)]
  exact J.get_cons_self _ _ _

theorem batchSuccessBody_count (c : List J) (e : List String) (n : String) :
    (batchSuccessBody c e n).get "count" = some (J.num (c.length : ℚ)) := by
  simp only [batchSuccessBody, List.cons_append]
  rw [J.get_cons_of_ne _ _ _ _ (by decide), J.get_cons_of_ne _ _ _ _ (by decide)]
  exact J.get_cons_self _ _ _

theorem batchSuccessBody_message (c : List J) (e : List String) (n : String) :
    (batchSuccessBody c e n).get "message"
      = some (J.str ("Created " ++ toString c.length ++ " " ++ n)) := by
  simp only [batchSuccessBody, List.cons_append]
  rw [J.get_cons_of_ne _ _ _ _ (by decide), J.get_cons_of_ne _ _ _ _ (by decide),
      J.get_cons_of_ne _ _ _ _ (by decide)]
  exact J.get_cons_self _ _ _

theorem batchSuccessBody_errors (c : List J) (e : List String) (n : String) :
    (batchSuccessBody c e n).get "errors"
      = if e.isEmpty then none else some (J.arr (e.map J.str)) := by
  simp only [batchSuccessBody, List.cons_append]
  rw [J.get_cons_of_ne _ _ _ _ (by decide), J.get_cons_of_ne _ _ _ _ (by decide),
      J.get_cons_of_ne _ _ _ _ (by decide), J.get_cons_of_ne _ _ _ _ (by decide)]
  cases e with
  | nil => simp [J.get]
  | cons hd tl => simp [J.get_cons_self, List.isEmpty]

theorem batchSuccessBody_errorsLen (c : List J) (e : List String) (n : String) :
    errorsLen (batchSuccessBody c e n) = e.length := by
  simp only [errorsLen, jArrLen?, batchSuccessBody_errors]
  cases e with
  | nil => simp
  | cons hd tl => simp [List.isEmpty]

/-- Validity of one `/create_level/` item: what its loop accepts. -/
def levelDefValid (lv : LevelDef) : Bool := (levelCheck lv).isOk

/-- Validity of one `/create_line/` item: what its loop accepts. -/
def lineElemValid (ctx : LineCtx) (e : LineElem) : Bool := (lineCheck ctx e).isOk

/-- Validity of one `/create_surface/` item: what its loop accepts. -/
def surfaceElemValid (ctx : SurfCtx) (e : SurfaceElem) : Bool :=
  (surfaceCheck ctx e).isOk

theorem countP_enum {α : Type} (p : α → Bool) (l : List α) :
    l.enum.countP (fun q => p q.2) = l.countP p := by
  have h1 : l.countP p = (l.enum.map Prod.snd).countP p := by
    rw [List.enum_map_snd]
  rw [h1, List.countP_map]
  rfl

/-- Aggregate behaviour of the batch loop: each item contributes exactly one
`created` record (when its check passes) or exactly one error string, and
each accepted item adds exactly one to the creation measure `f` of the
document. -/
theorem batchFold_spec {α β : Type} (label : String) (check : α → Except String β)
    (apply : Doc → β → Doc × J) (f : Doc → ℕ)
    (hf : ∀ d k, f (apply d k).1 = f d + 1) :
    ∀ (l : List (ℕ × α)) (st : Doc × List J × List String),
      (l.foldl (batchFold label check apply) st).2.1.length
          = st.2.1.length + l.countP (fun p => (check p.2).isOk) ∧
      (l.foldl (batchFold label check apply) st).2.2.length
          = st.2.2.length + l.countP (fun p => !(check p.2).isOk) ∧
      f (l.foldl (batchFold label check apply) st).1
          = f st.1 + l.countP (fun p => (check p.2).isOk) := by
  intro l
  induction l with
  | nil => intro st; simp
  | cons hd tl ih =>
    intro st
    simp only [List.foldl_cons, List.countP_cons]
    cases hc : check hd.2 with
    | error m =>
      have hstep : batchFold label check apply st hd
          = (st.1, st.2.1, st.2.2 ++ [label ++ " " ++ toString hd.1 ++ ": " ++ m]) := by
        simp [batchFold, hc]
      rw [hstep]
      obtain ⟨h1, h2, h3⟩ :=
        ih (st.1, st.2.1, st.2.2 ++ [label ++ " " ++ toString hd.1 ++ ": " ++ m])
      rw [h1, h2, h3]
      refine ⟨?_, ?_, ?_⟩ <;> simp [hc, Except.isOk, Except.toBool] <;> omega
    | ok k =>
      have hstep : batchFold label check apply st hd
          = ((apply st.1 k).1, st.2.1 ++ [(apply st.1 k).2], st.2.2) := by
        simp [batchFold, hc]
      rw [hstep]
      obtain ⟨h1, h2, h3⟩ := ih ((apply st.1 k).1, st.2.1 ++ [(apply st.1 k).2], st.2.2)
      rw [h1, h2, h3]
      refine ⟨?_, ?_, ?_⟩ <;>
        simp [hc, hf, Except.isOk, Except.toBool] <;> omega

theorem levelApply_measure (d : Doc) (k : LevelDef × ℚ) :
    (levelApply d k).1.levels.length = d.levels.length + 1 := by
  simp [levelApply]

theorem lineApply_measure (d : Doc) (k : LineOk) :
    (lineApply d k).1.elements.length = d.elements.length + 1 := by
  cases hk : k.kind with
  | wall wt hf of st => simp [lineApply, hk]
  | beam bt => by_cases hb : bt.isActive <;> simp [lineApply, hk, hb]

theorem surfaceApply_measure (d : Doc) (k : SurfOk) :
    (surfaceApply d k).1.elements.length = d.elements.length + 1 := by
  cases k <;> simp [surfaceApply]

theorem create_level_handler_commit (doc : Doc) (req : CreateLevelReq)
    (hne : req.levels ≠ []) (hc : doc.commitOk = true) :
    create_level_handler (some doc) req =
      ⟨ok200 (batchSuccessBody
          (req.levels.enum.foldl (batchFold "Level" levelCheck levelApply) (doc, [], [])).2.1
          (req.levels.enum.foldl (batchFold "Level" levelCheck levelApply) (doc, [], [])).2.2
          "level(s)"),
       some (req.levels.enum.foldl (batchFold "Level" levelCheck levelApply) (doc, [], [])).1,
       1, 1, 0⟩ := by
  have h : req.levels.isEmpty = false := by simp [List.isEmpty_iff, hne]
  simp [create_level_handler, h, hc]

theorem create_line_based_commit (doc : Doc) (req : CreateLineReq)
    (hne : req.elements ≠ []) (hlm : doc.level_map ≠ []) (hc : doc.commitOk = true) :
    create_line_based (some doc) req =
      ⟨ok200 (batchSuccessBody
          (req.elements.enum.foldl
            (batchFold "Element" (lineCheck doc.lineCtx) lineApply) (doc, [], [])).2.1
          (req.elements.enum.foldl
            (batchFold "Element" (lineCheck doc.lineCtx) lineApply) (doc, [], [])).2.2
          "element(s)"),
       some (req.elements.enum.foldl
         (batchFold "Element" (lineCheck doc.lineCtx) lineApply) (doc, [], [])).1,
       1, 1, 0⟩ := by
  have h : req.elements.isEmpty = false := by simp [List.isEmpty_iff, hne]
  have h2 : doc.level_map.isEmpty = false := by simp [List.isEmpty_iff, hlm]
  simp [create_line_based, h, h2, hc]

theorem create_surface_based_commit (doc : Doc) (req : CreateSurfaceReq)
    (hne : req.elements ≠ []) (hlm : doc.level_map ≠ []) (hc : doc.commitOk = true) :
    create_surface_based (some doc) req =
      ⟨ok200 (batchSuccessBody
          (req.elements.enum.foldl
            (batchFold "Element" (surfaceCheck doc.surfCtx) surfaceApply) (doc, [], [])).2.1
          (req.elements.enum.foldl
            (batchFold "Element" (surfaceCheck doc.surfCtx) surfaceApply) (doc, [], [])).2.2
          "element(s)"),
       some (req.elements.enum.foldl
         (batchFold "Element" (surfaceCheck doc.surfCtx) surfaceApply) (doc, [], [])).1,
       1, 1, 0⟩ := by
  have h : req.elements.isEmpty = false := by simp [List.isEmpty_iff, hne]
  have h2 : doc.level_map.isEmpty = false := by simp [List.isEmpty_iff, hlm]
  simp [create_surface_based, h, h2, hc]

/-- What claim C1 asserts of one batch-creation response: a success envelope
with `count = N`, a `created` list of length `N`, an `errors` list of length
`M` (no `errors` key counts as length 0, since the handlers omit the key when
nothing failed), and `N` elements committed by the single per-request
transaction (`f` is the size of the document store the route creates into). -/
def C1Batch (out : Out) (orig : ℕ) (f : Doc → ℕ) (N M : ℕ) : Prop :=
  out.resp.status = 200 ∧
  out.resp.body.get "status" = some (J.str "success") ∧
  out.resp.body.get "count" = some (J.num (N : ℚ)) ∧
  jArrLen? out.resp.body "created" = some N ∧
  errorsLen out.resp.body = M ∧
  (∃ d, out.doc? = some d ∧ f d = orig + N) ∧
  out.txStarted = 1 ∧ out.txCommitted = 1 ∧ out.txRolledBack = 0

theorem c1_batch_out {α β : Type} (label : String) (check : α → Except String β)
    (apply : Doc → β → Doc × J) (f : Doc → ℕ)
    (hf : ∀ d k, f (apply d k).1 = f d + 1) (doc : Doc) (l : List α) (noun : String) :
    C1Batch
      ⟨ok200 (batchSuccessBody
          (l.enum.foldl (batchFold label check apply) (doc, [], [])).2.1
          (l.enum.foldl (batchFold label check apply) (doc, [], [])).2.2 noun),
       some (l.enum.foldl (batchFold label check apply) (doc, [], [])).1, 1, 1, 0⟩
      (f doc) f (l.countP fun x => (check x).isOk)
      (l.countP fun x => !(check x).isOk) := by
  obtain ⟨h1, h2, h3⟩ := batchFold_spec label check apply f hf l.enum (doc, [], [])
  have hce : l.enum.countP (fun p => (check p.2).isOk) = l.countP fun x => (check x).isOk :=
    countP_enum (fun x => (check x).isOk) l
  have hee : l.enum.countP (fun p => !(check p.2).isOk) = l.countP fun x => !(check x).isOk :=
    countP_enum (fun x => !(check x).isOk) l
  set F := l.enum.foldl (batchFold label check apply) (doc, [], []) with hF
  simp only [List.length_nil, Nat.zero_add] at h1 h2 h3
  refine ⟨rfl, batchSuccessBody_status _ _ _, ?_, ?_, ?_, ?_, rfl, rfl, rfl⟩
  · show (batchSuccessBody F.2.1 F.2.2 noun).get "count" = _
    rw [batchSuccessBody_count, h1, hce]
  · show jArrLen? (batchSuccessBody F.2.1 F.2.2 noun) "created" = _
    simp only [jArrLen?, batchSuccessBody_created]
    rw [h1, hce]
  · show errorsLen (batchSuccessBody F.2.1 F.2.2 noun) = _
    rw [batchSuccessBody_errorsLen, h2, hee]
  · exact ⟨F.1, rfl, by rw [h3, hce]⟩

/-- Aggregate behaviour of the `structure.py` skip-style loop: each valid
item contributes one `created` record and one created element, and invalid
items contribute nothing at all. -/
theorem skipFold_spec {α : Type} (valid : α → Bool) (apply : Doc → α → Doc × J)
    (f : Doc → ℕ) (hf : ∀ d x, f (apply d x).1 = f d + 1) :
    ∀ (l : List α) (st : Doc × List J),
      (l.foldl (skipFold valid apply) st).2.length = st.2.length + l.countP valid ∧
      f (l.foldl (skipFold valid apply) st).1 = f st.1 + l.countP valid := by
  intro l
  induction l with
  | nil => intro st; simp
  | cons hd tl ih =>
    intro st
    simp only [List.foldl_cons, List.countP_cons]
    cases hv : valid hd with
    | true =>
      have hstep : skipFold valid apply st hd
          = ((apply st.1 hd).1, st.2 ++ [(apply st.1 hd).2]) := by
        simp [skipFold, hv]
      rw [hstep]
      obtain ⟨h1, h2⟩ := ih ((apply st.1 hd).1, st.2 ++ [(apply st.1 hd).2])
      rw [h1, h2]
      constructor <;> simp [hv, hf] <;> omega
    | false =>
      have hstep : skipFold valid apply st hd = st := by simp [skipFold, hv]
      rw [hstep]
      obtain ⟨h1, h2⟩ := ih st
      rw [h1, h2]
      constructor <;> simp [hv]

theorem gridApply_measure (d : Doc) (gd : GridDef) :
    (gridApply d gd).1.elements.length = d.elements.length + 1 := by
  simp [gridApply]

theorem framingApply_measure (d : Doc) (fd : FramingDef) :
    (framingApply d fd).1.elements.length = d.elements.length + 1 := by
  simp only [framingApply]
  split <;> (split <;> simp)

theorem gridSuccessBody_status (c : List J) :
    (gridSuccessBody c).get "status" = some (J.str "success") :=
  J.get_cons_self _ _ _

theorem gridSuccessBody_created (c : List J) :
    (gridSuccessBody c).get "created" = some (J.arr c) := by
  simp only [gridSuccessBody]
  rw [J.get_cons_of_ne _ _ _ _ (by decide)]
  exact J.get_cons_self _ _ _

theorem gridSuccessBody_count (c : List J) :
    (gridSuccessBody c).get "count" = some (J.num (c.length : ℚ)) := by
  simp only [gridSuccessBody]
  rw [J.get_cons_of_ne _ _ _ _ (by decide), J.get_cons_of_ne _ _ _ _ (by decide)]
  exact J.get_cons_self _ _ _

theorem gridSuccessBody_errors (c : List J) :
    (gridSuccessBody c).get "errors" = none := by
  simp only [gridSuccessBody]
  rw [J.get_cons_of_ne _ _ _ _ (by decide), J.get_cons_of_ne _ _ _ _ (by decide),
      J.get_cons_of_ne _ _ _ _ (by decide), J.get_cons_of_ne _ _ _ _ (by decide)]
  rfl

theorem framingSuccessBody_status (c : List J) :
    (framingSuccessBody c).get "status" = some (J.str "success") :=
  J.get_cons_self _ _ _

theorem framingSuccessBody_created (c : List J) :
    (framingSuccessBody c).get "created" = some (J.arr c) := by
  simp only [framingSuccessBody]
  rw [J.get_cons_of_ne _ _ _ _ (by decide)]
  exact J.get_cons_self _ _ _

theorem framingSuccessBody_count (c : List J) :
    (framingSuccessBody c).get "count" = some (J.num (c.length : ℚ)) := by
  simp only [framingSuccessBody]
  rw [J.get_cons_of_ne _ _ _ _ (by decide), J.get_cons_of_ne _ _ _ _ (by decide)]
  exact J.get_cons_self _ _ _

theorem framingSuccessBody_errors (c : List J) :
    (framingSuccessBody c).get "errors" = none := by
  simp only [framingSuccessBody]
  rw [J.get_cons_of_ne _ _ _ _ (by decide), J.get_cons_of_ne _ _ _ _ (by decide),
      J.get_cons_of_ne _ _ _ _ (by decide), J.get_cons_of_ne _ _ _ _ (by decide)]
  rfl

theorem create_grid_handler_commit (doc : Doc) (req : CreateGridReq)
    (hne : req.grids ≠ []) (hc : doc.commitOk = true) :
    create_grid_handler (some doc) (some req) =
      ⟨ok200 (gridSuccessBody
          (req.grids.foldl (skipFold gridDefValid gridApply) (doc, [])).2),
       some (req.grids.foldl (skipFold gridDefValid gridApply) (doc, [])).1,
       1, 1, 0⟩ := by
  have h : req.grids.isEmpty = false := by simp [List.isEmpty_iff, hne]
  simp [create_grid_handler, h, hc]

theorem create_framing_handler_commit (doc : Doc) (req : CreateFramingReq)
    (hne : req.elements ≠ []) (hbt : doc.beamTypes ≠ []) (hc : doc.commitOk = true) :
    create_framing_handler (some doc) (some req) =
      ⟨ok200 (framingSuccessBody
          (req.elements.foldl (skipFold framingDefValid framingApply) (doc, [])).2),
       some (req.elements.foldl (skipFold framingDefValid framingApply) (doc, [])).1,
       1, 1, 0⟩ := by
  have h : req.elements.isEmpty = false := by simp [List.isEmpty_iff, hne]
  have h2 : doc.beamTypes.isEmpty = false := by simp [List.isEmpty_iff, hbt]
  simp [create_framing_handler, h, h2, hc]

/-- Claim C1, over the three batch-creation routes: with `N` valid and `M`
invalid definitions the response is a success envelope with `count = N`, a
`created` list of length `N` and an `errors` list of length `M`, and the `N`
valid elements are committed in the single per-request transaction. -/
def C1Prop (doc : Doc) (reqLv : CreateLevelReq) (reqLn : CreateLineReq)
    (reqSf : CreateSurfaceReq) : Prop :=
  C1Batch (create_level_handler (some doc) reqLv) doc.levels.length
      (fun d => d.levels.length)
      (reqLv.levels.countP levelDefValid)
      (reqLv.levels.countP fun x => !levelDefValid x) ∧
  C1Batch (create_line_based (some doc) reqLn) doc.elements.length
      (fun d => d.elements.length)
      (reqLn.elements.countP (lineElemValid doc.lineCtx))
      (reqLn.elements.countP fun x => !lineElemValid doc.lineCtx x) ∧
  C1Batch (create_surface_based (some doc) reqSf) doc.elements.length
      (fun d => d.elements.length)
      (reqSf.elements.countP (surfaceElemValid doc.surfCtx))
      (reqSf.elements.countP fun x => !surfaceElemValid doc.surfCtx x)

/-- What the `structure.py` batch routes actually return for `N` valid
definitions: a success envelope with `count = N`, `created` of length `N`,
the `N` valid elements committed in the single per-request transaction —
and NO `errors` key at all, whatever the number of invalid definitions. -/
def C1SkipBatch (out : Out) (orig : ℕ) (f : Doc → ℕ) (N : ℕ) : Prop :=
  out.resp.status = 200 ∧
  out.resp.body.get "status" = some (J.str "success") ∧
  out.resp.body.get "count" = some (J.num (N : ℚ)) ∧
  jArrLen? out.resp.body "created" = some N ∧
  out.resp.body.get "errors" = none ∧
  (∃ d, out.doc? = some d ∧ f d = orig + N) ∧
  out.txStarted = 1 ∧ out.txCommitted = 1 ∧ out.txRolledBack = 0

theorem c1_skip_out {α : Type} (valid : α → Bool) (apply : Doc → α → Doc × J)
    (f : Doc → ℕ) (hf : ∀ d x, f (apply d x).1 = f d + 1)
    (doc : Doc) (l : List α) (mkBody : List J → J)
    (hstatus : ∀ c, (mkBody c).get "status" = some (J.str "success"))
    (hcount : ∀ c, (mkBody c).get "count" = some (J.num (c.length : ℚ)))
    (hcreated : ∀ c, (mkBody c).get "created" = some (J.arr c))
    (herrors : ∀ c, (mkBody c).get "errors" = none) :
    C1SkipBatch ⟨ok200 (mkBody (l.foldl (skipFold valid apply) (doc, [])).2),
                 some (l.foldl (skipFold valid apply) (doc, [])).1, 1, 1, 0⟩
      (f doc) f (l.countP valid) := by
  obtain ⟨h1, h2⟩ := skipFold_spec valid apply f hf l (doc, [])
  simp only [List.length_nil, Nat.zero_add] at h1 h2
  refine ⟨rfl, hstatus _, ?_, ?_, ?_, ?_, rfl, rfl, rfl⟩
  · show (mkBody _).get "count" = _
    rw [hcount, h1]
  · show jArrLen? (mkBody _) "created" = _
    simp only [jArrLen?, hcreated, h1]
  · show (mkBody _).get "errors" = none
    exact herrors _
  · exact ⟨_, rfl, by rw [h2]⟩

/-- Claim C1 as amended: the three `building.py` batch routes behave as the
original claim states (`C1Prop`), while the two `structure.py` batch routes
(`/create_grid/`, `/create_framing/`) skip invalid definitions with only a
log warning and return a success envelope with `count = N` but no `errors`
array at all (`C1SkipBatch`). -/
def C1AmendedProp (doc : Doc) (reqLv : CreateLevelReq) (reqLn : CreateLineReq)
    (reqSf : CreateSurfaceReq) (reqGr : CreateGridReq)
    (reqFr : CreateFramingReq) : Prop :=
  C1Prop doc reqLv reqLn reqSf ∧
  C1SkipBatch (create_grid_handler (some doc) (some reqGr)) doc.elements.length
    (fun d => d.elements.length) (reqGr.grids.countP gridDefValid) ∧
  C1SkipBatch (create_framing_handler (some doc) (some reqFr)) doc.elements.length
    (fun d => d.elements.length) (reqFr.elements.countP framingDefValid)

/-- C1 (amended): for the `building.py` batch-creation routes
(`/create_line/`, `/create_surface/`, `/create_level/`), a request with `N`
valid and `M` invalid definitions returns a success envelope with
`count = N`, `created` of length `N`, `errors` of length `M`, and commits
the `N` valid elements in the single per-request transaction; the
`structure.py` batch routes (`/create_grid/`, `/create_framing/`) commit
their `N` valid definitions the same way but skip invalid ones silently,
returning no `errors` array. -/
theorem claim_C1 (doc : Doc) (reqLv : CreateLevelReq) (reqLn : CreateLineReq)
    (reqSf : CreateSurfaceReq) (reqGr : CreateGridReq) (reqFr : CreateFramingReq)
    (hc : doc.commitOk = true)
    (h1 : reqLv.levels ≠ []) (h2 : reqLn.elements ≠ [])
    (h3 : reqSf.elements ≠ []) (h4 : doc.level_map ≠ [])
    (h5 : reqGr.grids ≠ []) (h6 : reqFr.elements ≠ [])
    (h7 : doc.beamTypes ≠ []) :
    C1AmendedProp doc reqLv reqLn reqSf reqGr reqFr := by
  refine ⟨⟨?_, ?_, ?_⟩, ?_, ?_⟩
  · rw [create_level_handler_commit doc reqLv h1 hc]
    exact c1_batch_out "Level" levelCheck levelApply (fun d => d.levels.length)
      levelApply_measure doc reqLv.levels "level(s)"
  · rw [create_line_based_commit doc reqLn h2 h4 hc]
    exact c1_batch_out "Element" (lineCheck doc.lineCtx) lineApply
      (fun d => d.elements.length) lineApply_measure doc reqLn.elements "element(s)"
  · rw [create_surface_based_commit doc reqSf h3 h4 hc]
    exact c1_batch_out "Element" (surfaceCheck doc.surfCtx) surfaceApply
      (fun d => d.elements.length) surfaceApply_measure doc reqSf.elements "element(s)"
  · rw [create_grid_handler_commit doc reqGr h5 hc]
    exact c1_skip_out gridDefValid gridApply (fun d => d.elements.length)
      gridApply_measure doc reqGr.grids gridSuccessBody gridSuccessBody_status
      gridSuccessBody_count gridSuccessBody_created gridSuccessBody_errors
  · rw [create_framing_handler_commit doc reqFr h6 h7 hc]
    exact c1_skip_out framingDefValid framingApply (fun d => d.elements.length)
      framingApply_measure doc reqFr.elements framingSuccessBody
      framingSuccessBody_status framingSuccessBody_count framingSuccessBody_created
      framingSuccessBody_errors

/-- A concrete host document for witnesses: one level, one wall type, one
floor type, two plain elements, one phase, all host operations succeeding. -/
def docW : Doc :=
  { levels := [⟨1, "Level 1", 0⟩],
    wallTypes := [⟨11, "Generic - 200mm", true⟩],
    beamTypes := [],
    floorTypes := [⟨12, "Generic Floor", true⟩],
    roofTypes := [],
    elements :=
      [{ id := 21, name := "Basic Wall", category? := some "Walls",
         catType := "Model", builtinCat? := some "OST_Walls", typeId? := some 11,
         levelId? := some 1, length? := some 10, height? := none,
         heightAboveLevel? := none, bboxMin? := none, bboxMax? := none,
         isType := false },
       { id := 22, name := "Door 1", category? := some "Doors",
         catType := "Model", builtinCat? := some "OST_Doors", typeId? := none,
         levelId? := some 1, length? := none, height? := none,
         heightAboveLevel? := none, bboxMin? := none, bboxMax? := none,
         isType := false }],
    rooms := [],
    nextId := 100, commitOk := true, phases := 1,
    newRoomAt := fun _ => true, newRoomArea? := some 10000,
    deleteCascade := fun i => if i = 21 then [22] else [],
    execRun := fun _ => .ok "", activeView? := none }

/-- A `/create_level/` request with one valid and one invalid definition. -/
def reqC1Lv : CreateLevelReq := ⟨[⟨some 3000, some "L2"⟩, ⟨none, none⟩]⟩

/-- A `/create_line/` request with one valid wall and one invalid item. -/
def reqC1Ln : CreateLineReq :=
  ⟨[{ element_type? := some "wall",
      start_point? := some ⟨some 0, some 0, none⟩,
      end_point? := some ⟨some 1000, some 0, none⟩,
      level_name? := none, type_name? := none, name? := none,
      height? := none, offset? := none, structural := false },
    { element_type? := some "pillar",
      start_point? := some ⟨some 0, some 0, none⟩,
      end_point? := some ⟨some 1000, some 0, none⟩,
      level_name? := none, type_name? := none, name? := none,
      height? := none, offset? := none, structural := false }]⟩

/-- A `/create_surface/` request with one valid floor (triangle in point
format) and one invalid item (two boundary entries only). -/
def reqC1Sf : CreateSurfaceReq :=
  ⟨[{ element_type? := some "floor",
      boundary := [⟨some 0, some 0, none, none, none⟩,
                   ⟨some 1000, some 0, none, none, none⟩,
                   ⟨some 0, some 1000, none, none, none⟩],
      level_name? := none, type_name? := none, name? := none, offset? := none },
    { element_type? := some "floor",
      boundary := [⟨some 0, some 0, none, none, none⟩,
                   ⟨some 1000, some 0, none, none, none⟩],
      level_name? := none, type_name? := none, name? := none, offset? := none }]⟩

/-- `docW` with a structural framing symbol loaded, so the framing route's
404 guard passes. -/
def docWF : Doc := { docW with beamTypes := [⟨31, "W310x39", true⟩] }

/-- A zero-length grid definition: skipped by `/create_grid/` with only a
log warning, recorded nowhere in the response. -/
def gdZero : GridDef :=
  ⟨some ⟨some 0, some 0, none⟩, some ⟨some 0, some 0, none⟩, some "B"⟩

/-- A valid grid definition. -/
def gdOk : GridDef :=
  ⟨some ⟨some 0, some 0, none⟩, some ⟨some 1000, some 0, none⟩, some "A"⟩

/-- A `/create_grid/` request with one valid and one invalid definition. -/
def reqC1Grid : CreateGridReq := ⟨[gdOk, gdZero]⟩

/-- A `/create_framing/` request with one valid and one invalid definition. -/
def reqC1Fr : CreateFramingReq :=
  ⟨[⟨some ⟨some 0, some 0, none⟩, some ⟨some 2000, some 0, none⟩, none, none, some "b1"⟩,
    ⟨some ⟨some 5, some 5, none⟩, some ⟨some 5, some 5, none⟩, none, none, some "b2"⟩]⟩

theorem claim_C1_witness : C1AmendedProp docWF reqC1Lv reqC1Ln reqC1Sf reqC1Grid reqC1Fr :=
  claim_C1 docWF reqC1Lv reqC1Ln reqC1Sf reqC1Grid reqC1Fr rfl (by decide) (by decide)
    (by decide) (by decide) (by decide) (by decide) (by decide)

/-- C1 counterexample: `/create_grid/` is a batch-creation route, and with
`N = 1` valid plus `M = 1` invalid (zero-length) definitions it returns a
success envelope with `count = 1` and NO `errors` key — an errors list of
length 0, not `M = 1` — because `structure.py` lines 68-70 skip the invalid
definition with only a log warning. -/
theorem claim_C1_counterexample :
    reqC1Grid.grids.countP (fun g => !gridDefValid g) = 1 ∧
    (create_grid_handler (some docW) (some reqC1Grid)).resp.status = 200 ∧
    (create_grid_handler (some docW) (some reqC1Grid)).resp.body.get "count"
      = some (J.num 1) ∧
    (create_grid_handler (some docW) (some reqC1Grid)).resp.body.get "errors"
      = none ∧
    errorsLen (create_grid_handler (some docW) (some reqC1Grid)).resp.body = 0 ∧
    (0 : ℕ) ≠ 1 := by
  have hv1 : gridDefValid gdOk = true := by
    norm_num [gridDefValid, gdOk, skipXYZ, distSq, MM_TO_FEET, Pt.gx, Pt.gy,
              Pt.gz, Pt.empty]
  have hv2 : gridDefValid gdZero = false := by
    norm_num [gridDefValid, gdZero, skipXYZ, distSq, MM_TO_FEET, Pt.gx, Pt.gy,
              Pt.gz, Pt.empty]
  have hcnt : reqC1Grid.grids.countP (fun g => !gridDefValid g) = 1 := by
    simp [reqC1Grid, List.countP_cons, hv1, hv2]
  have hcntv : reqC1Grid.grids.countP gridDefValid = 1 := by
    simp [reqC1Grid, List.countP_cons, hv1, hv2]
  obtain ⟨hlen, _⟩ := skipFold_spec gridDefValid gridApply
    (fun d => d.elements.length) gridApply_measure reqC1Grid.grids (docW, [])
  simp only [List.length_nil, Nat.zero_add] at hlen
  rw [hcntv] at hlen
  have hout := create_grid_handler_commit docW reqC1Grid (by decide) rfl
  refine ⟨hcnt, ?_, ?_, ?_, ?_, by decide⟩
  · rw [hout]
    rfl
  · rw [hout]
    show (gridSuccessBody _).get "count" = _
    rw [gridSuccessBody_count, hlen]
    norm_num
  · rw [hout]
    exact gridSuccessBody_errors _
  · rw [hout]
    show errorsLen (gridSuccessBody _) = 0
    simp [errorsLen, jArrLen?, gridSuccessBody_errors]

/-- The C8 request body: `{"levels":[{"elevation":3000,"name":"L2"}]}`. -/
def reqC8 : CreateLevelReq := ⟨[⟨some 3000, some "L2"⟩]⟩

/-- C8: POSTing `/create_level/` with `{"levels":[{"elevation":3000,
"name":"L2"}]}` against a document where creation succeeds returns a success
envelope with `count = 1` whose single `created` entry has name `"L2"` and
`elevation_mm = 3000.0`. -/
theorem claim_C8 (doc : Doc) (hc : doc.commitOk = true) :
    ∃ entry : J,
      (create_level_handler (some doc) reqC8).resp.status = 200 ∧
      (create_level_handler (some doc) reqC8).resp.body.get "status"
        = some (J.str "success") ∧
      (create_level_handler (some doc) reqC8).resp.body.get "count"
        = some (J.num 1) ∧
      (create_level_handler (some doc) reqC8).resp.body.get "created"
        = some (J.arr [entry]) ∧
      entry.get "name" = some (J.str "L2") ∧
      entry.get "elevation_mm" = some (J.num 3000) := by
  have hs : sanitize_string "L2" = "L2" := by decide
  have hne : ("L2" : String).isEmpty = false := by decide
  have hF : reqC8.levels.enum.foldl (batchFold "Level" levelCheck levelApply)
        (doc, [], []) =
      ({ doc with levels := doc.levels ++ [⟨doc.nextId, "L2", 3000 / 304.8⟩],
                  nextId := doc.nextId + 1 },
       [J.obj [("id", J.num (doc.nextId : ℚ)), ("name", J.str "L2"),
               ("elevation_mm", J.num 3000)]], []) := by
    simp [reqC8, List.enum, List.enumFrom, batchFold, levelCheck, levelApply,
          newLevelFrom, Level.getName, hs, hne]
  refine ⟨J.obj [("id", J.num (doc.nextId : ℚ)), ("name", J.str "L2"),
                 ("elevation_mm", J.num 3000)], ?_, ?_, ?_, ?_, ?_, ?_⟩
  · rw [create_level_handler_commit doc reqC8 (by decide) hc]
    rfl
  · rw [create_level_handler_commit doc reqC8 (by decide) hc]
    exact batchSuccessBody_status _ _ _
  · rw [create_level_handler_commit doc reqC8 (by decide) hc]
    show (batchSuccessBody _ _ _).get "count" = _
    rw [hF, batchSuccessBody_count]
    norm_num
  · rw [create_level_handler_commit doc reqC8 (by decide) hc]
    show (batchSuccessBody _ _ _).get "created" = _
    rw [hF, batchSuccessBody_created]
  · rw [J.get_cons_of_ne _ _ _ _ (by decide)]
    exact J.get_cons_self _ _ _
  · rw [J.get_cons_of_ne _ _ _ _ (by decide), J.get_cons_of_ne _ _ _ _ (by decide)]
    exact J.get_cons_self _ _ _

theorem claim_C8_witness :
    ∃ entry : J,
      (create_level_handler (some docW) reqC8).resp.status = 200 ∧
      (create_level_handler (some docW) reqC8).resp.body.get "status"
        = some (J.str "success") ∧
      (create_level_handler (some docW) reqC8).resp.body.get "count"
        = some (J.num 1) ∧
      (create_level_handler (some docW) reqC8).resp.body.get "created"
        = some (J.arr [entry]) ∧
      entry.get "name" = some (J.str "L2") ∧
      entry.get "elevation_mm" = some (J.num 3000) :=
  claim_C8 docW rfl

/-! ## Claims C5 / C9 — `/delete_elements/` -/

/-- The dependents removed by the host over a `/delete_elements/` request:
per primary id, the host-removed ids other than that primary (what the loop
collects into `cascaded_ids` before deduplication and the final filter). -/
def deleteCascadeSpec (doc : Doc) (ids : List ℤ) : List ℤ :=
  match ids with
  | [] => []
  | id :: rest =>
    match hostDelete doc id with
    | .error _ => []
    | .ok dr => dr.2.filter (fun x => x ≠ id) ++ deleteCascadeSpec dr.1 rest

theorem cascadeFold_mem (id : ℤ) (removed : List ℤ) :
    ∀ (cs : List ℤ) (x : ℤ),
      (x ∈ removed.foldl
        (fun cs d => if d != id && !cs.contains d then cs ++ [d] else cs) cs) ↔
      (x ∈ cs ∨ (x ∈ removed ∧ x ≠ id)) := by
  induction removed with
  | nil => intro cs x; simp
  | cons d rest ih =>
    intro cs x
    simp only [List.foldl_cons]
    by_cases hd : d = id
    · have hcond : (d != id && !cs.contains d) = false := by simp [hd]
      rw [hcond]
      simp only [if_false, Bool.false_eq_true]
      rw [ih]
      subst hd
      constructor
      · rintro (h | ⟨h1, h2⟩)
        · exact Or.inl h
        · exact Or.inr ⟨List.mem_cons_of_mem _ h1, h2⟩
      · rintro (h | ⟨h1, h2⟩)
        · exact Or.inl h
        · rcases List.mem_cons.mp h1 with h1 | h1
          · exact absurd h1 h2
          · exact Or.inr ⟨h1, h2⟩
    · by_cases hc : d ∈ cs
      · have hcond : (d != id && !cs.contains d) = false := by simp [hc]
        rw [hcond]
        simp only [if_false, Bool.false_eq_true]
        rw [ih]
        constructor
        · rintro (h | ⟨h1, h2⟩)
          · exact Or.inl h
          · exact Or.inr ⟨List.mem_cons_of_mem _ h1, h2⟩
        · rintro (h | ⟨h1, h2⟩)
          · exact Or.inl h
          · rcases List.mem_cons.mp h1 with h1 | h1
            · exact Or.inl (h1 ▸ hc)
            · exact Or.inr ⟨h1, h2⟩
      · have hcond : (d != id && !cs.contains d) = true := by simp [hd, hc]
        rw [hcond]
        simp only [if_true]
        rw [ih]
        constructor
        · rintro (h | ⟨h1, h2⟩)
          · rcases List.mem_append.mp h with h | h
            · exact Or.inl h
            · simp only [List.mem_singleton] at h
              exact Or.inr ⟨h ▸ List.mem_cons_self d rest, h ▸ hd⟩
          · exact Or.inr ⟨List.mem_cons_of_mem _ h1, h2⟩
        · rintro (h | ⟨h1, h2⟩)
          · exact Or.inl (List.mem_append_left _ h)
          · rcases List.mem_cons.mp h1 with h1 | h1
            · exact Or.inl (List.mem_append_right _ (by simp [h1]))
            · exact Or.inr ⟨h1, h2⟩

theorem deleteLoop_spec (ids : List ℤ) :
    ∀ (doc : Doc) (deleted cascaded : List ℤ) (res : Doc × List ℤ × List ℤ),
      deleteLoop doc ids deleted cascaded = .ok res →
      res.2.1 = deleted ++ ids ∧
      (∀ x, x ∈ res.2.2 ↔ x ∈ cascaded ∨ x ∈ deleteCascadeSpec doc ids) := by
  induction ids with
  | nil =>
    intro doc deleted cascaded res h
    simp only [deleteLoop] at h
    cases h
    simp [deleteCascadeSpec]
  | cons id rest ih =>
    intro doc deleted cascaded res h
    simp only [deleteLoop] at h
    cases hdel : hostDelete doc id with
    | error m => rw [hdel] at h; cases h
    | ok dr =>
      rw [hdel] at h
      obtain ⟨h1, h2⟩ := ih dr.1 (deleted ++ [id]) _ res h
      constructor
      · rw [h1]; simp
      · intro x
        rw [h2 x, cascadeFold_mem]
        simp only [deleteCascadeSpec, hdel, List.mem_append, List.mem_filter,
                   decide_eq_true_eq]
        constructor
        · rintro ((h | ⟨ha, hb⟩) | h)
          · exact Or.inl h
          · exact Or.inr (Or.inl ⟨ha, hb⟩)
          · exact Or.inr (Or.inr h)
        · rintro (h | (⟨ha, hb⟩ | h))
          · exact Or.inl (Or.inl h)
          · exact Or.inl (Or.inr ⟨ha, hb⟩)
          · exact Or.inr h

/-- C9: a `/delete_elements/` request containing an id that does not resolve
to an element returns 404 with an `error` field before any transaction is
opened, leaving the document unchanged (nothing is deleted, including the
ids that do exist). -/
theorem claim_C9 (doc : Doc) (req : DeleteReq) (bad : ℤ)
    (hmem : bad ∈ req.element_ids) (hmiss : doc.getElement? bad = none) :
    (delete_elements_handler (some doc) (some req)).resp.status = 404 ∧
    (delete_elements_handler (some doc) (some req)).doc? = some doc ∧
    (delete_elements_handler (some doc) (some req)).txStarted = 0 ∧
    (delete_elements_handler (some doc) (some req)).txCommitted = 0 ∧
    (∃ e, (delete_elements_handler (some doc) (some req)).resp.body.get "error"
            = some (J.str e)) := by
  have hne : req.element_ids.isEmpty = false := by
    cases hids : req.element_ids with
    | nil => rw [hids] at hmem; simp at hmem
    | cons a l => rfl
  cases hfind : req.element_ids.find? (fun id => (doc.getElement? id).isNone) with
  | none =>
    exfalso
    have := List.find?_eq_none.mp hfind bad hmem
    simp [hmiss] at this
  | some m =>
    refine ⟨?_, ?_, ?_, ?_, ?_⟩ <;>
      simp [delete_elements_handler, hne, hfind, noTx, mkErr, J.get_cons_self]

theorem deleteSuccessBody_status (d c : List ℤ) :
    (deleteSuccessBody d c).get "status" = some (J.str "success") := by
  simp only [deleteSuccessBody]
  exact J.get_cons_self _ _ _

theorem deleteSuccessBody_deleted (d c : List ℤ) :
    (deleteSuccessBody d c).get "deleted_ids"
      = some (J.arr (d.map (fun i => J.num (i : ℚ)))) := by
  simp only [deleteSuccessBody]
  rw [J.get_cons_of_ne _ _ _ _ (by decide), J.get_cons_of_ne _ _ _ _ (by decide)]
  exact J.get_cons_self _ _ _

theorem deleteSuccessBody_cascaded (d c : List ℤ) :
    (deleteSuccessBody d c).get "cascaded_ids"
      = some (J.arr (c.map (fun i => J.num (i : ℚ)))) := by
  simp only [deleteSuccessBody]
  rw [J.get_cons_of_ne _ _ _ _ (by decide), J.get_cons_of_ne _ _ _ _ (by decide),
      J.get_cons_of_ne _ _ _ _ (by decide)]
  exact J.get_cons_self _ _ _

/-- C5: a `/delete_elements/` request that succeeds answers with
`deleted_ids` equal to exactly the requested ids, `cascaded_ids` holding the
dependent ids the host removed, and no id in both lists. -/
theorem claim_C5 (doc : Doc) (req : DeleteReq)
    (hsucc : (delete_elements_handler (some doc) (some req)).resp.status = 200) :
    (delete_elements_handler (some doc) (some req)).resp.body.get "deleted_ids"
      = some (J.arr (req.element_ids.map (fun i => J.num (i : ℚ)))) ∧
    ∃ cascadedIds : List ℤ,
      (delete_elements_handler (some doc) (some req)).resp.body.get "cascaded_ids"
        = some (J.arr (cascadedIds.map (fun i => J.num (i : ℚ)))) ∧
      (∀ x, x ∈ cascadedIds ↔
          (x ∈ deleteCascadeSpec doc req.element_ids ∧ x ∉ req.element_ids)) ∧
      (∀ x ∈ cascadedIds, x ∉ req.element_ids) := by
  cases hne : req.element_ids.isEmpty with
  | true => exfalso; simp [delete_elements_handler, hne, noTx, mkErr] at hsucc
  | false =>
  cases hfind : req.element_ids.find? (fun id => (doc.getElement? id).isNone) with
  | some m => exfalso; simp [delete_elements_handler, hne, hfind, noTx, mkErr] at hsucc
  | none =>
  cases hloop : deleteLoop doc req.element_ids [] [] with
  | error m => exfalso; simp [delete_elements_handler, hne, hfind, hloop] at hsucc
  | ok res =>
  cases hcommit : doc.commitOk with
  | false => exfalso; simp [delete_elements_handler, hne, hfind, hloop, hcommit] at hsucc
  | true =>
    obtain ⟨hdl, hcl⟩ := deleteLoop_spec req.element_ids doc [] [] res hloop
    rw [List.nil_append] at hdl
    have hout : delete_elements_handler (some doc) (some req)
        = ⟨ok200 (deleteSuccessBody res.2.1
            (res.2.2.filter (fun cid => !res.2.1.contains cid))),
           some res.1, 1, 1, 0⟩ := by
      simp [delete_elements_handler, hne, hfind, hloop, hcommit]
    rw [hout]
    refine ⟨?_, ?_⟩
    · show (deleteSuccessBody _ _).get "deleted_ids" = _
      rw [deleteSuccessBody_deleted, hdl]
    · refine ⟨res.2.2.filter (fun cid => !res.2.1.contains cid), ?_, ?_, ?_⟩
      · show (deleteSuccessBody _ _).get "cascaded_ids" = _
        rw [deleteSuccessBody_cascaded]
      · intro x
        rw [List.mem_filter, hcl x, hdl]
        simp
      · intro x hx
        rw [List.mem_filter, hdl] at hx
        simpa using hx.2

theorem claim_C5_witness :
    (delete_elements_handler (some docW) (some ⟨[21]⟩)).resp.body.get "deleted_ids"
      = some (J.arr ([(21 : ℤ)].map (fun i => J.num (i : ℚ)))) ∧
    ∃ cascadedIds : List ℤ,
      (delete_elements_handler (some docW) (some ⟨[21]⟩)).resp.body.get "cascaded_ids"
        = some (J.arr (cascadedIds.map (fun i => J.num (i : ℚ)))) ∧
      (∀ x, x ∈ cascadedIds ↔
          (x ∈ deleteCascadeSpec docW [21] ∧ x ∉ [(21 : ℤ)])) ∧
      (∀ x ∈ cascadedIds, x ∉ [(21 : ℤ)]) :=
  claim_C5 docW ⟨[21]⟩ (by decide)

theorem claim_C9_witness :
    (delete_elements_handler (some docW) (some ⟨[21, 99]⟩)).resp.status = 404 ∧
    (delete_elements_handler (some docW) (some ⟨[21, 99]⟩)).doc? = some docW ∧
    (delete_elements_handler (some docW) (some ⟨[21, 99]⟩)).txStarted = 0 ∧
    (delete_elements_handler (some docW) (some ⟨[21, 99]⟩)).txCommitted = 0 ∧
    (∃ e, (delete_elements_handler (some docW) (some ⟨[21, 99]⟩)).resp.body.get "error"
            = some (J.str e)) :=
  claim_C9 docW ⟨[21, 99]⟩ 99 (by decide) (by decide)

/-! ## Claim C2 — no-active-document behaviour -/

/-- A 503 response carrying an `error` field. -/
def is503Err (out : Out) : Prop :=
  out.resp.status = 503 ∧ ∃ e, out.resp.body.get "error" = some (J.str e)

/-- C2 as amended: every embedded route except `/execute_code/` answers a
request with no active document with 503 and an `error` field;
`/execute_code/` (which has no document guard) lets the transaction
constructor raise and answers 500 with an `error` field. -/
def C2Prop : Prop :=
  (∀ req, is503Err (create_level_handler none req)) ∧
  (∀ req, is503Err (create_line_based none req)) ∧
  (∀ req, is503Err (create_surface_based none req)) ∧
  (∀ req?, is503Err (delete_elements_handler none req?)) ∧
  (∀ req, is503Err (create_room_handler none req)) ∧
  (∀ req, is503Err (ai_element_filter_handler none req)) ∧
  is503Err (export_room_data_handler none) ∧
  (∀ req : ExecReq, req.code ≠ "" →
    (execute_code none req).resp.status = 500 ∧
    (execute_code none req).resp.status ≠ 503 ∧
    ∃ e, (execute_code none req).resp.body.get "error" = some (J.str e))

/-- C2 (amended): a request with no active host document gets 503 with an
`error` field on every modeled route except `/execute_code/`, which answers
500 (not 503) with an `error` field. -/
theorem claim_C2 : C2Prop := by
  refine ⟨?_, ?_, ?_, ?_, ?_, ?_, ?_, ?_⟩
  · exact fun req => ⟨rfl, _, J.get_cons_self _ _ _⟩
  · exact fun req => ⟨rfl, _, J.get_cons_self _ _ _⟩
  · exact fun req => ⟨rfl, _, J.get_cons_self _ _ _⟩
  · exact fun req? => ⟨rfl, _, J.get_cons_self _ _ _⟩
  · exact fun req => ⟨rfl, _, J.get_cons_self _ _ _⟩
  · exact fun req => ⟨rfl, _, J.get_cons_self _ _ _⟩
  · exact ⟨rfl, _, J.get_cons_self _ _ _⟩
  · intro req hne
    have h : req.code.isEmpty = false := by
      cases h : req.code.isEmpty with
      | true => exact absurd ((String.isEmpty_iff req.code).mp h) hne
      | false => rfl
    refine ⟨?_, ?_, ?_⟩ <;> simp [execute_code, h, mkErr, noTx, J.get_cons_self]

/-- C2 counterexample: `/execute_code/` called with no active document and a
non-empty `code` answers 500, not the 503 the claim asserts for every route
(`code_execution.py` has no `if not doc` guard; `DB.Transaction(doc, ...)`
raises on the null document and the outer handler returns 500). -/
theorem claim_C2_counterexample :
    (execute_code none ⟨"print 1", "Code execution"⟩).resp.status = 500 ∧
    (execute_code none ⟨"print 1", "Code execution"⟩).resp.status ≠ 503 ∧
    (execute_code none ⟨"print 1", "Code execution"⟩).resp.body.get "error"
      = some (J.str nullDocMsg) := by
  refine ⟨rfl, by decide, rfl⟩

theorem claim_C2_witness :
    (execute_code none ⟨"print 1", "Code execution"⟩).resp.status = 500 ∧
    (execute_code none ⟨"print 1", "Code execution"⟩).resp.status ≠ 503 ∧
    ∃ e, (execute_code none ⟨"print 1", "Code execution"⟩).resp.body.get "error"
           = some (J.str e) :=
  claim_C2.2.2.2.2.2.2.2 ⟨"print 1", "Code execution"⟩ (by decide)

/-! ## Claim C3 — rollback on transaction failure -/

/-- A rolled-back transaction failure answered 500 with the exception text
but no `traceback` field (the `building.py` batch handlers). -/
def TxRollbackNoTb (out : Out) (doc : Doc) : Prop :=
  out.resp.status = 500 ∧
  (∃ e, out.resp.body.get "error" = some (J.str e)) ∧
  out.resp.body.get "traceback" = none ∧
  out.doc? = some doc ∧ out.txStarted = 1 ∧ out.txCommitted = 0 ∧
  out.txRolledBack = 1

/-- A rolled-back transaction failure answered 500 with the exception text
and a `traceback` field (handlers that re-raise into their outer handler). -/
def TxRollbackTb (out : Out) (doc : Doc) : Prop :=
  out.resp.status = 500 ∧
  (∃ e, out.resp.body.get "error" = some (J.str e)) ∧
  (∃ tb, out.resp.body.get "traceback" = some (J.str tb)) ∧
  out.doc? = some doc ∧ out.txStarted = 1 ∧ out.txCommitted = 0 ∧
  out.txRolledBack = 1

/-- C3 as amended: an exception escaping a transaction body always rolls the
transaction back (the document is unchanged) and answers 500 with the
exception text — but the three `building.py` batch handlers' transaction
failure path carries no stack trace, while `/delete_elements/` and
`/create_room/` re-raise and do include one. -/
def C3Prop : Prop :=
  (∀ doc req, doc.commitOk = false → req.levels ≠ [] →
     TxRollbackNoTb (create_level_handler (some doc) req) doc) ∧
  (∀ doc req, doc.commitOk = false → req.elements ≠ [] → doc.level_map ≠ [] →
     TxRollbackNoTb (create_line_based (some doc) req) doc) ∧
  (∀ doc (req : CreateSurfaceReq), doc.commitOk = false → req.elements ≠ [] →
     doc.level_map ≠ [] →
     TxRollbackNoTb (create_surface_based (some doc) req) doc) ∧
  (∀ doc (req : DeleteReq) m, req.element_ids.isEmpty = false →
     req.element_ids.find? (fun id => (doc.getElement? id).isNone) = none →
     deleteLoop doc req.element_ids [] [] = .error m →
     TxRollbackTb (delete_elements_handler (some doc) (some req)) doc) ∧
  (∀ doc (req : DeleteReq) res, doc.commitOk = false →
     req.element_ids.isEmpty = false →
     req.element_ids.find? (fun id => (doc.getElement? id).isNone) = none →
     deleteLoop doc req.element_ids [] [] = .ok res →
     TxRollbackTb (delete_elements_handler (some doc) (some req)) doc) ∧
  (∀ doc (req : CreateRoomReq) lv, doc.commitOk = false →
     truthyStr req.level_name? = true →
     doc.levels.find? (fun l => l.getName == req.level_name?.getD "") = some lv →
     doc.phases ≠ 0 →
     (truthyPt req.location? = true →
        doc.newRoomAt ((req.location?.getD Pt.empty).gx * MM_TO_FEET,
                       (req.location?.getD Pt.empty).gy * MM_TO_FEET) = true) →
     TxRollbackTb (create_room_handler (some doc) req) doc)

/-- C3 (amended): any exception escaping a transaction body rolls back the
open transaction, leaves the document unchanged and answers 500 with the
exception text; the stack trace is present for the re-raising handlers
(`/delete_elements/`, `/create_room/`) but absent from the `building.py`
batch handlers' transaction-failure responses. -/
theorem claim_C3 : C3Prop := by
  refine ⟨?_, ?_, ?_, ?_, ?_, ?_⟩
  · intro doc req h hne
    have hE : req.levels.isEmpty = false := by simp [List.isEmpty_iff, hne]
    have hout : create_level_handler (some doc) req
        = ⟨mkErr 500 ("Transaction failed: " ++ commitFailMsg), some doc, 1, 0, 1⟩ := by
      simp [create_level_handler, hE, h]
    rw [hout]
    exact ⟨rfl, ⟨_, J.get_cons_self _ _ _⟩, rfl, rfl, rfl, rfl, rfl⟩
  · intro doc req h hne hlm
    have hE : req.elements.isEmpty = false := by simp [List.isEmpty_iff, hne]
    have hL : doc.level_map.isEmpty = false := by simp [List.isEmpty_iff, hlm]
    have hout : create_line_based (some doc) req
        = ⟨mkErr 500 ("Transaction failed: " ++ commitFailMsg), some doc, 1, 0, 1⟩ := by
      simp [create_line_based, hE, hL, h]
    rw [hout]
    exact ⟨rfl, ⟨_, J.get_cons_self _ _ _⟩, rfl, rfl, rfl, rfl, rfl⟩
  · intro doc req h hne hlm
    have hE : req.elements.isEmpty = false := by simp [List.isEmpty_iff, hne]
    have hL : doc.level_map.isEmpty = false := by simp [List.isEmpty_iff, hlm]
    have hout : create_surface_based (some doc) req
        = ⟨mkErr 500 ("Transaction failed: " ++ commitFailMsg), some doc, 1, 0, 1⟩ := by
      simp [create_surface_based, hE, hL, h]
    rw [hout]
    exact ⟨rfl, ⟨_, J.get_cons_self _ _ _⟩, rfl, rfl, rfl, rfl, rfl⟩
  · intro doc req m hE hfind hloop
    have hout : delete_elements_handler (some doc) (some req)
        = ⟨⟨500, J.obj [("error", J.str m), ("traceback", J.str (pyTraceback m))]⟩,
           some doc, 1, 0, 1⟩ := by
      simp [delete_elements_handler, hE, hfind, hloop]
    rw [hout]
    refine ⟨rfl, ⟨_, J.get_cons_self _ _ _⟩, ⟨pyTraceback m, ?_⟩, rfl, rfl, rfl, rfl⟩
    rw [J.get_cons_of_ne _ _ _ _ (by decide)]
    exact J.get_cons_self _ _ _
  · intro doc req res h hE hfind hloop
    have hout : delete_elements_handler (some doc) (some req)
        = ⟨⟨500, J.obj [("error", J.str commitFailMsg),
                        ("traceback", J.str (pyTraceback commitFailMsg))]⟩,
           some doc, 1, 0, 1⟩ := by
      simp [delete_elements_handler, hE, hfind, hloop, h]
    rw [hout]
    refine ⟨rfl, ⟨_, J.get_cons_self _ _ _⟩, ⟨pyTraceback commitFailMsg, ?_⟩,
            rfl, rfl, rfl, rfl⟩
    rw [J.get_cons_of_ne _ _ _ _ (by decide)]
    exact J.get_cons_self _ _ _
  · intro doc req lv h htr hfind hph hra
    have hb : (doc.phases == 0) = false := by simpa using hph
    have hout : create_room_handler (some doc) req
        = ⟨⟨500, J.obj [("error", J.str commitFailMsg),
                        ("traceback", J.str (pyTraceback commitFailMsg))]⟩,
           some doc, 1, 0, 1⟩ := by
      cases hp : truthyPt req.location? with
      | true => simp [create_room_handler, htr, hfind, hb, hp, hra hp, h]
      | false => simp [create_room_handler, htr, hfind, hb, hp, h]
    rw [hout]
    refine ⟨rfl, ⟨_, J.get_cons_self _ _ _⟩, ⟨pyTraceback commitFailMsg, ?_⟩,
            rfl, rfl, rfl, rfl⟩
    rw [J.get_cons_of_ne _ _ _ _ (by decide)]
    exact J.get_cons_self _ _ _

/-- `docW` with a host that refuses to commit transactions. -/
def docNoCommit : Doc := { docW with commitOk := false }

/-- C3 counterexample: `/create_level/` on a document whose commit fails
answers 500 with the exception text but NO `traceback` field (and no stack
trace string anywhere in the body), contradicting the claim that every
transaction-failure response contains the stack trace. -/
theorem claim_C3_counterexample :
    (create_level_handler (some docNoCommit) reqC8).resp.status = 500 ∧
    (create_level_handler (some docNoCommit) reqC8).resp.body.get "traceback" = none ∧
    (create_level_handler (some docNoCommit) reqC8).resp.body.get "error"
      = some (J.str ("Transaction failed: " ++ commitFailMsg)) ∧
    (create_level_handler (some docNoCommit) reqC8).doc? = some docNoCommit ∧
    (create_level_handler (some docNoCommit) reqC8).txRolledBack = 1 :=
  ⟨rfl, rfl, rfl, rfl, rfl⟩

theorem claim_C3_witness :
    TxRollbackNoTb (create_level_handler (some docNoCommit) reqC8) docNoCommit :=
  claim_C3.1 docNoCommit reqC8 rfl (by decide)

/-! ## Claim C7 — lookup-miss payloads -/

/-- Whether a key starts with `"available"` (kernel-friendly form). -/
def keyIsAvailable (k : String) : Bool := k.data.take 9 == "available".data

/-- Whether a response body carries any `available_*` key. -/
def hasAvailableKey (b : J) : Bool :=
  match b with
  | .obj fs => fs.any (fun p => keyIsAvailable p.1)
  | _ => false

/-- C7 as amended: `/create_room/` answers an unknown level name with 404
and an `available_levels` list of the valid names, but `/ai_filter/` answers
an unknown category name with a 400 whose payload has no `available_*` list
(only a hint inside the `error` string). -/
def C7Prop : Prop :=
  (∀ doc (req : CreateRoomReq), truthyStr req.level_name? = true →
     doc.levels.find? (fun l => l.getName == req.level_name?.getD "") = none →
     (create_room_handler (some doc) req).resp.status = 404 ∧
     (create_room_handler (some doc) req).resp.body.get "available_levels"
       = some (J.arr (doc.levels.map (fun lv => J.str lv.getName))) ∧
     (∃ e, (create_room_handler (some doc) req).resp.body.get "error"
             = some (J.str e))) ∧
  (∀ doc (req : AiFilterReq), req.visible_in_view = false →
     truthyStr req.category? = true →
     builtinCategories.contains (req.category?.getD "") = false →
     (ai_element_filter_handler (some doc) req).resp.status = 400 ∧
     hasAvailableKey (ai_element_filter_handler (some doc) req).resp.body = false ∧
     (∃ e, (ai_element_filter_handler (some doc) req).resp.body.get "error"
             = some (J.str e)))

/-- C7 (amended): a lookup miss on a level name in `/create_room/` yields a
404 whose payload lists the valid names under `available_levels`; the
`/ai_filter/` category miss yields a 400 with no `available_*` list. -/
theorem claim_C7 : C7Prop := by
  constructor
  · intro doc req htr hfind
    have hout : create_room_handler (some doc) req
        = noTx (some doc)
            ⟨404, J.obj [("error", J.str ("Level \x27" ++ req.level_name?.getD "" ++
                                          "\x27 not found")),
                         ("available_levels",
                          J.arr (doc.levels.map (fun lv => J.str lv.getName)))]⟩ := by
      simp [create_room_handler, htr, hfind]
    rw [hout]
    refine ⟨rfl, ?_, ⟨_, J.get_cons_self _ _ _⟩⟩
    show (J.obj _).get "available_levels" = _
    rw [J.get_cons_of_ne _ _ _ _ (by decide)]
    exact J.get_cons_self _ _ _
  · intro doc req hv htr hni
    have hni2 : ¬(req.category?.getD "" ∈ builtinCategories) := by simpa using hni
    have hout : ai_element_filter_handler (some doc) req
        = noTx (some doc)
            (mkErr 400 ("Invalid category: " ++ req.category?.getD "" ++
                        ". Use BuiltInCategory names like OST_Walls, OST_Doors")) := by
      simp [ai_element_filter_handler, hv, htr, hni2]
    rw [hout]
    exact ⟨rfl, rfl, ⟨_, J.get_cons_self _ _ _⟩⟩

/-- An `/ai_filter/` request naming a category that does not exist. -/
def reqC7bad : AiFilterReq := ⟨some "OST_Bogus", none, false, none, none, 50⟩

/-- C7 counterexample: `/ai_filter/` with the unknown category
`"OST_Bogus"` answers 400 whose payload is only an `error` string — it
contains no `available_*` list of valid names, contradicting the claim for
every handler. -/
theorem claim_C7_counterexample :
    (ai_element_filter_handler (some docW) reqC7bad).resp.status = 400 ∧
    hasAvailableKey (ai_element_filter_handler (some docW) reqC7bad).resp.body
      = false ∧
    (ai_element_filter_handler (some docW) reqC7bad).resp.body
      = J.obj [("error", J.str ("Invalid category: OST_Bogus. " ++
               "Use BuiltInCategory names like OST_Walls, OST_Doors"))] :=
  ⟨rfl, rfl, rfl⟩

theorem claim_C7_witness :
    (ai_element_filter_handler (some docW) reqC7bad).resp.status = 400 ∧
    hasAvailableKey (ai_element_filter_handler (some docW) reqC7bad).resp.body
      = false ∧
    (∃ e, (ai_element_filter_handler (some docW) reqC7bad).resp.body.get "error"
            = some (J.str e)) :=
  claim_C7.2 docW reqC7bad rfl (by decide) (by decide)

/-! ## Claim C4 — unit conversion constants -/

/-- C4 as amended: millimetres convert to feet through exactly `1/304.8`
(`MM_TO_FEET`, and the literal `/ 304.8` in `building.py`); `/room_data/`
converts areas out with exactly `SQFT_TO_SQM = 0.0929` and perimeters back
through `MM_TO_FEET`; volumes convert with `CUFT_TO_CUM = 0.0283168`; but
`/create_room/` converts its reported area with `0.092903`, not `0.0929`. -/
def C4Prop : Prop :=
  MM_TO_FEET = 1 / (304.8 : ℚ) ∧
  SQFT_TO_SQM = (929 : ℚ) / 10000 ∧
  CUFT_TO_CUM = (283168 : ℚ) / 10000000 ∧
  (∀ (doc : Doc) (room : Room) (a p : ℚ), room.area? = some a →
     room.perimeter? = some p →
     (roomEntry doc room).get "area_sqm"
         = some (J.num (pyRound 2 (a * SQFT_TO_SQM))) ∧
     (roomEntry doc room).get "perimeter_mm"
         = some (J.num (pyRound 0 (p / MM_TO_FEET)))) ∧
  (∀ (doc : Doc) (k : LevelDef × ℚ),
     (levelApply doc k).1.levels
       = doc.levels ++ [newLevelFrom doc.nextId k.1 (k.2 / 304.8)] ∧
     (levelApply doc k).2.get "elevation_mm" = some (J.num k.2)) ∧
  (∀ (doc : Doc) (req : CreateRoomReq) (lv : Level) (a : ℚ),
     doc.commitOk = true → truthyStr req.level_name? = true →
     doc.levels.find? (fun l => l.getName == req.level_name?.getD "") = some lv →
     doc.phases ≠ 0 → doc.newRoomArea? = some a →
     (truthyPt req.location? = true →
        doc.newRoomAt ((req.location?.getD Pt.empty).gx * MM_TO_FEET,
                       (req.location?.getD Pt.empty).gy * MM_TO_FEET) = true) →
     (create_room_handler (some doc) req).resp.body.get "area"
       = some (J.num (pyRound 2 (a * (0.092903 : ℚ)))))

/-- C4 (amended): linear values convert with exactly `1/304.8`, `/room_data/`
areas with exactly `0.0929` and volumes with exactly `0.0283168`, but the
`/create_room/` response area uses the factor `0.092903`. -/
theorem claim_C4 : C4Prop := by
  refine ⟨rfl, by norm_num [SQFT_TO_SQM], by norm_num [CUFT_TO_CUM], ?_, ?_, ?_⟩
  · intro doc room a p ha hp
    constructor
    · simp only [roomEntry, ha]
      rw [J.get_cons_of_ne _ _ _ _ (by decide), J.get_cons_of_ne _ _ _ _ (by decide),
          J.get_cons_of_ne _ _ _ _ (by decide), J.get_cons_of_ne _ _ _ _ (by decide)]
      exact J.get_cons_self _ _ _
    · simp only [roomEntry, hp]
      rw [J.get_cons_of_ne _ _ _ _ (by decide), J.get_cons_of_ne _ _ _ _ (by decide),
          J.get_cons_of_ne _ _ _ _ (by decide), J.get_cons_of_ne _ _ _ _ (by decide),
          J.get_cons_of_ne _ _ _ _ (by decide)]
      exact J.get_cons_self _ _ _
  · intro doc k
    constructor
    · simp [levelApply]
    · simp only [levelApply]
      rw [J.get_cons_of_ne _ _ _ _ (by decide), J.get_cons_of_ne _ _ _ _ (by decide)]
      exact J.get_cons_self _ _ _
  · intro doc req lv a hc htr hfind hph harea hra
    have hb : (doc.phases == 0) = false := by simpa using hph
    have hbody : (create_room_handler (some doc) req).resp.body.get "area"
        = some (J.num (pyRound 2 (a * (0.092903 : ℚ)))) := by
      cases hp : truthyPt req.location? with
      | true =>
        simp only [create_room_handler, htr, hfind, hb, hp, hra hp, hc, harea]
        simp only [Bool.not_true, Bool.false_eq_true, if_false, if_true]
        show (J.obj _).get "area" = _
        rw [J.get_cons_of_ne _ _ _ _ (by decide), J.get_cons_of_ne _ _ _ _ (by decide),
            J.get_cons_of_ne _ _ _ _ (by decide), J.get_cons_of_ne _ _ _ _ (by decide),
            J.get_cons_of_ne _ _ _ _ (by decide)]
        exact J.get_cons_self _ _ _
      | false =>
        simp only [create_room_handler, htr, hfind, hb, hp, hc, harea]
        simp only [Bool.not_false, Bool.not_true, Bool.false_eq_true, if_false, if_true]
        show (J.obj _).get "area" = _
        rw [J.get_cons_of_ne _ _ _ _ (by decide), J.get_cons_of_ne _ _ _ _ (by decide),
            J.get_cons_of_ne _ _ _ _ (by decide), J.get_cons_of_ne _ _ _ _ (by decide),
            J.get_cons_of_ne _ _ _ _ (by decide)]
        exact J.get_cons_self _ _ _
    exact hbody

/-- The `/create_room/` request of the C4 counterexample. -/
def reqC4 : CreateRoomReq :=
  ⟨some "Level 1", some ⟨some 0, some 0, none⟩, some "Kitchen", none⟩

/-- C4 counterexample: against a host room area of 10000 sq ft,
`/create_room/` reports `area = 929.03` — the factor `0.092903` of
`rooms.py` line 112 — while the claimed factor `0.0929` would give `929.0`,
so not every handler converts areas with exactly `0.0929`. -/
theorem claim_C4_counterexample :
    (create_room_handler (some docW) reqC4).resp.body.get "area"
      = some (J.num (pyRound 2 (10000 * (0.092903 : ℚ)))) ∧
    pyRound 2 ((10000 : ℚ) * (0.092903 : ℚ)) = (92903 : ℚ) / 100 ∧
    pyRound 2 ((10000 : ℚ) * SQFT_TO_SQM) = 929 ∧
    pyRound 2 ((10000 : ℚ) * (0.092903 : ℚ)) ≠ pyRound 2 ((10000 : ℚ) * SQFT_TO_SQM) := by
  have e1 : pyRound 2 ((10000 : ℚ) * (0.092903 : ℚ)) = (92903 : ℚ) / 100 := by
    simp only [pyRound, pyRoundInt]
    rw [if_pos (by norm_num : (0 : ℚ) ≤ 10000 * (0.092903 : ℚ) * 10 ^ 2)]
    norm_num
  have e2 : pyRound 2 ((10000 : ℚ) * SQFT_TO_SQM) = 929 := by
    simp only [pyRound, pyRoundInt, SQFT_TO_SQM]
    rw [if_pos (by norm_num : (0 : ℚ) ≤ 10000 * (0.0929 : ℚ) * 10 ^ 2)]
    norm_num
  refine ⟨rfl, e1, e2, ?_⟩
  rw [e1, e2]
  norm_num

theorem claim_C4_witness :
    (create_room_handler (some docW) reqC4).resp.body.get "area"
      = some (J.num (pyRound 2 (10000 * (0.092903 : ℚ)))) :=
  claim_C4.2.2.2.2.2 docW reqC4 ⟨1, "Level 1", 0⟩ 10000 rfl rfl rfl (by decide)
    rfl (fun _ => rfl)

/-! ## Claim C10 — point-format boundary normalization -/

/-- C10: a point-format boundary (first entry has an `x` or `y` key) with
`n ≥ 3` points is converted to exactly `n` segments, segment `i` joining
point `i` to point `(i+1) % n`, and the resulting closed-polygon gap is 0 —
so the closed-polygon check can never reject a point-format boundary. -/
theorem claim_C10 (b : List BEntry) (h3 : 3 ≤ b.length)
    (hx : detectPointFormat b = true) :
    (normalizeBoundary b).length = b.length ∧
    (∀ i, i < b.length →
       (normalizeBoundary b).get? i
         = some ⟨(b.getD i default).pt,
                 (b.getD ((i + 1) % b.length) default).pt⟩) ∧
    closedGapSq (normalizeBoundary b) = 0 ∧
    closedPolyRejects (normalizeBoundary b) = false := by
  have hpos : 0 < b.length := by omega
  have hnb : normalizeBoundary b
      = (List.range b.length).map (fun i =>
          ⟨(b.getD i default).pt, (b.getD ((i + 1) % b.length) default).pt⟩) := by
    simp [normalizeBoundary, hx]
  have hlen : (normalizeBoundary b).length = b.length := by
    rw [hnb]; simp
  have hget : ∀ i, i < b.length →
      (normalizeBoundary b).get? i
        = some ⟨(b.getD i default).pt, (b.getD ((i + 1) % b.length) default).pt⟩ := by
    intro i hi
    rw [hnb, List.get?_map, List.get?_range hi]
    rfl
  have hgap : closedGapSq (normalizeBoundary b) = 0 := by
    have h0 : (normalizeBoundary b).get? 0
        = some ⟨(b.getD 0 default).pt, (b.getD (1 % b.length) default).pt⟩ :=
      hget 0 hpos
    have hlastIdx : b.length - 1 < b.length := by omega
    have hmod : (b.length - 1 + 1) % b.length = 0 := by
      have : b.length - 1 + 1 = b.length := by omega
      rw [this, Nat.mod_self]
    have hl : (normalizeBoundary b).get? (b.length - 1)
        = some ⟨(b.getD (b.length - 1) default).pt, (b.getD 0 default).pt⟩ := by
      rw [hget (b.length - 1) hlastIdx, hmod]
    have hhead : (normalizeBoundary b).headD default
        = ⟨(b.getD 0 default).pt, (b.getD (1 % b.length) default).pt⟩ := by
      rw [List.headD_eq_head?, ← List.get?_zero, h0]
      rfl
    have hlast : (normalizeBoundary b).getLastD default
        = ⟨(b.getD (b.length - 1) default).pt, (b.getD 0 default).pt⟩ := by
      rw [List.getLastD_eq_getLast?, List.getLast?_eq_get?, hlen, hl]
      rfl
    rw [closedGapSq, hhead, hlast]
    ring
  refine ⟨hlen, hget, hgap, ?_⟩
  rw [closedPolyRejects, hgap]
  norm_num

/-- The triangle boundary of the C10 witness (point format). -/
def triangleBoundary : List BEntry :=
  [⟨some 0, some 0, none, none, none⟩,
   ⟨some 1000, some 0, none, none, none⟩,
   ⟨some 0, some 1000, none, none, none⟩]

theorem claim_C10_witness :
    (normalizeBoundary triangleBoundary).length = triangleBoundary.length ∧
    (∀ i, i < triangleBoundary.length →
       (normalizeBoundary triangleBoundary).get? i
         = some ⟨(triangleBoundary.getD i default).pt,
                 (triangleBoundary.getD ((i + 1) % triangleBoundary.length) default).pt⟩) ∧
    closedGapSq (normalizeBoundary triangleBoundary) = 0 ∧
    closedPolyRejects (normalizeBoundary triangleBoundary) = false :=
  claim_C10 triangleBoundary (by decide) (by decide)

/-! ## Claim C6 — response envelope shapes -/

/-- The success envelope shape: HTTP 200, `"status": "success"`, and (when
`needMsg`) a string `message` field. -/
def successEnvelope (needMsg : Bool) (r : Resp) : Prop :=
  r.status = 200 ∧ r.body.get "status" = some (J.str "success") ∧
  (needMsg = true → ∃ m, r.body.get "message" = some (J.str m))

/-- The error envelope shape: a status in {400, 404, 500, 503} and a string
`error` field. -/
def errorEnvelope (r : Resp) : Prop :=
  (r.status = 400 ∨ r.status = 404 ∨ r.status = 500 ∨ r.status = 503) ∧
  ∃ e, r.body.get "error" = some (J.str e)

/-- A response is one of the two envelope shapes. -/
def envelopeOK (needMsg : Bool) (r : Resp) : Prop :=
  successEnvelope needMsg r ∨ errorEnvelope r

theorem envelopeOK_mkErr (nm : Bool) (s : ℕ) (msg : String)
    (h : s = 400 ∨ s = 404 ∨ s = 500 ∨ s = 503) :
    envelopeOK nm (mkErr s msg) :=
  Or.inr ⟨h, _, J.get_cons_self _ _ _⟩

theorem envelopeOK_errTb (nm : Bool) (e tb : String) :
    envelopeOK nm ⟨500, J.obj [("error", J.str e), ("traceback", J.str tb)]⟩ :=
  Or.inr ⟨Or.inr (Or.inr (Or.inl rfl)), _, J.get_cons_self _ _ _⟩

theorem envelopeOK_batchSuccess (c : List J) (e : List String) (n : String) :
    envelopeOK true (ok200 (batchSuccessBody c e n)) :=
  Or.inl ⟨rfl, batchSuccessBody_status c e n, fun _ => ⟨_, batchSuccessBody_message c e n⟩⟩

theorem deleteSuccessBody_message (d c : List ℤ) :
    (deleteSuccessBody d c).get "message" = some (J.str (deleteMessage d c)) := by
  simp only [deleteSuccessBody]
  rw [J.get_cons_of_ne _ _ _ _ (by decide), J.get_cons_of_ne _ _ _ _ (by decide),
      J.get_cons_of_ne _ _ _ _ (by decide), J.get_cons_of_ne _ _ _ _ (by decide)]
  exact J.get_cons_self _ _ _

theorem envelopeOK_deleteSuccess (d c : List ℤ) :
    envelopeOK true (ok200 (deleteSuccessBody d c)) :=
  Or.inl ⟨rfl, deleteSuccessBody_status d c, fun _ => ⟨_, deleteSuccessBody_message d c⟩⟩

theorem createRoomSuccessBody_status (rid : ℚ) (an anum lv : String) (ar : ℚ)
    (lb : String) :
    (createRoomSuccessBody rid an anum lv ar lb).get "status"
      = some (J.str "success") :=
  J.get_cons_self _ _ _

theorem createRoomSuccessBody_message (rid : ℚ) (an anum lv : String) (ar : ℚ)
    (lb : String) :
    (createRoomSuccessBody rid an anum lv ar lb).get "message"
      = some (J.str ("Room \x27" ++ lb ++ "\x27 created on level \x27" ++ lv ++ "\x27")) := by
  simp only [createRoomSuccessBody]
  rw [J.get_cons_of_ne _ _ _ _ (by decide), J.get_cons_of_ne _ _ _ _ (by decide),
      J.get_cons_of_ne _ _ _ _ (by decide), J.get_cons_of_ne _ _ _ _ (by decide),
      J.get_cons_of_ne _ _ _ _ (by decide), J.get_cons_of_ne _ _ _ _ (by decide)]
  exact J.get_cons_self _ _ _

theorem envelopeOK_createRoomSuccess (rid : ℚ) (an anum lv : String) (ar : ℚ)
    (lb : String) :
    envelopeOK true (ok200 (createRoomSuccessBody rid an anum lv ar lb)) :=
  Or.inl ⟨rfl, createRoomSuccessBody_status rid an anum lv ar lb,
          fun _ => ⟨_, createRoomSuccessBody_message rid an anum lv ar lb⟩⟩

theorem aiFilterSuccessBody_message (es : List J) (t : ℕ) (cl : String) :
    (aiFilterSuccessBody es t cl).get "message"
      = some (J.str ("Found " ++ toString t ++ " " ++ cl ++
                     (if t ≠ 1 then "s" else "") ++ " matching filters")) := by
  simp only [aiFilterSuccessBody]
  rw [J.get_cons_of_ne _ _ _ _ (by decide), J.get_cons_of_ne _ _ _ _ (by decide),
      J.get_cons_of_ne _ _ _ _ (by decide), J.get_cons_of_ne _ _ _ _ (by decide)]
  exact J.get_cons_self _ _ _

theorem envelopeOK_aiFilterSuccess (es : List J) (t : ℕ) (cl : String) :
    envelopeOK true (ok200 (aiFilterSuccessBody es t cl)) :=
  Or.inl ⟨rfl, J.get_cons_self _ _ _, fun _ => ⟨_, aiFilterSuccessBody_message es t cl⟩⟩

theorem roomDataSuccessBody_message (rs : List J) :
    (roomDataSuccessBody rs).get "message"
      = some (J.str ("Exported data for " ++ toString rs.length ++ " room" ++
                     (if rs.length ≠ 1 then "s" else ""))) := by
  simp only [roomDataSuccessBody]
  rw [J.get_cons_of_ne _ _ _ _ (by decide), J.get_cons_of_ne _ _ _ _ (by decide),
      J.get_cons_of_ne _ _ _ _ (by decide)]
  exact J.get_cons_self _ _ _

theorem envelopeOK_roomDataSuccess (rs : List J) :
    envelopeOK true (ok200 (roomDataSuccessBody rs)) :=
  Or.inl ⟨rfl, J.get_cons_self _ _ _, fun _ => ⟨_, roomDataSuccessBody_message rs⟩⟩

theorem execSuccessBody_message_none (d o c : String) :
    (execSuccessBody d o c).get "message" = none := by
  simp only [execSuccessBody]
  rw [J.get_cons_of_ne _ _ _ _ (by decide), J.get_cons_of_ne _ _ _ _ (by decide),
      J.get_cons_of_ne _ _ _ _ (by decide), J.get_cons_of_ne _ _ _ _ (by decide)]
  rfl

theorem envelopeOK_execSuccess (d o c : String) :
    envelopeOK false (ok200 (execSuccessBody d o c)) :=
  Or.inl ⟨rfl, J.get_cons_self _ _ _, fun h => by cases h⟩

theorem execFailBody_error (code et m p : String) :
    (execFailBody code et m p).get "error" = some (J.str (et ++ ": " ++ m)) := by
  simp only [execFailBody, List.cons_append]
  rw [J.get_cons_of_ne _ _ _ _ (by decide)]
  exact J.get_cons_self _ _ _

theorem execFailBody_message_none (code et m p : String) :
    (execFailBody code et m p).get "message" = none := by
  simp only [execFailBody, List.cons_append]
  rw [J.get_cons_of_ne _ _ _ _ (by decide), J.get_cons_of_ne _ _ _ _ (by decide),
      J.get_cons_of_ne _ _ _ _ (by decide), J.get_cons_of_ne _ _ _ _ (by decide),
      J.get_cons_of_ne _ _ _ _ (by decide)]
  cases hp : p.isEmpty with
  | true =>
    simp only [hp, if_true, List.nil_append]
    cases hh : execHints et m with
    | nil => rfl
    | cons a l =>
      rw [J.get_cons_of_ne _ _ _ _ (by decide)]
      rfl
  | false =>
    simp only [hp, Bool.false_eq_true, if_false, List.cons_append, List.nil_append]
    rw [J.get_cons_of_ne _ _ _ _ (by decide)]
    cases hh : execHints et m with
    | nil => rfl
    | cons a l =>
      rw [J.get_cons_of_ne _ _ _ _ (by decide)]
      rfl

theorem envelopeOK_execFail (code et m p : String) :
    envelopeOK false ⟨500, execFailBody code et m p⟩ :=
  Or.inr ⟨Or.inr (Or.inr (Or.inl rfl)), _, execFailBody_error code et m p⟩

theorem ne_nil_of_isEmpty_false {α : Type} {l : List α} (h : l.isEmpty = false) :
    l ≠ [] := by
  cases l with
  | nil => simp at h
  | cons a t => simp

theorem mkErr_message_none (s : ℕ) (m : String) :
    (mkErr s m).body.get "message" = none := by
  simp only [mkErr]
  rw [J.get_cons_of_ne _ _ _ _ (by decide)]
  rfl

/-- C6 as amended, over the embedded routes: every response is either a
success envelope (200 with `"status": "success"`, and a string `message` on
every route except `/execute_code/`) or an error envelope (an `error` string
with HTTP status in {400, 404, 500, 503}); `/execute_code/` responses never
carry a `message` field. -/
def C6Prop : Prop :=
  (∀ doc? req, envelopeOK true (create_level_handler doc? req).resp) ∧
  (∀ doc? req, envelopeOK true (create_line_based doc? req).resp) ∧
  (∀ doc? req, envelopeOK true (create_surface_based doc? req).resp) ∧
  (∀ doc? req?, envelopeOK true (delete_elements_handler doc? req?).resp) ∧
  (∀ doc? req, envelopeOK true (create_room_handler doc? req).resp) ∧
  (∀ doc? req, envelopeOK true (ai_element_filter_handler doc? req).resp) ∧
  (∀ doc?, envelopeOK true (export_room_data_handler doc?).resp) ∧
  (∀ doc? req, envelopeOK false (execute_code doc? req).resp) ∧
  (∀ doc? req, (execute_code doc? req).resp.body.get "message" = none)

/-- C6 (amended): every embedded route's response is a success envelope
(`status: success`, with a string `message` except on `/execute_code/`) or
an error envelope (`error` string, HTTP status in {400, 404, 500, 503});
`traceback` is present only on exception paths (claim C3), and
`/execute_code/` success bodies carry no `message`. -/
theorem claim_C6 : C6Prop := by
  refine ⟨?_, ?_, ?_, ?_, ?_, ?_, ?_, ?_, ?_⟩
  · -- create_level
    intro doc? req
    cases doc? with
    | none => exact envelopeOK_mkErr true 503 _ (by omega)
    | some doc =>
      cases hE : req.levels.isEmpty with
      | true => simp [create_level_handler, hE]; exact envelopeOK_mkErr true 400 _ (by omega)
      | false =>
        cases hc : doc.commitOk with
        | true =>
          rw [create_level_handler_commit doc req (ne_nil_of_isEmpty_false hE) hc]
          exact envelopeOK_batchSuccess _ _ _
        | false =>
          simp [create_level_handler, hE, hc]
          exact envelopeOK_mkErr true 500 _ (by omega)
  · -- create_line
    intro doc? req
    cases doc? with
    | none => exact envelopeOK_mkErr true 503 _ (by omega)
    | some doc =>
      cases hE : req.elements.isEmpty with
      | true => simp [create_line_based, hE]; exact envelopeOK_mkErr true 400 _ (by omega)
      | false =>
        cases hL : doc.level_map.isEmpty with
        | true =>
          simp [create_line_based, hE, hL]
          exact envelopeOK_mkErr true 404 _ (by omega)
        | false =>
          cases hc : doc.commitOk with
          | true =>
            rw [create_line_based_commit doc req (ne_nil_of_isEmpty_false hE)
                  (ne_nil_of_isEmpty_false hL) hc]
            exact envelopeOK_batchSuccess _ _ _
          | false =>
            simp [create_line_based, hE, hL, hc]
            exact envelopeOK_mkErr true 500 _ (by omega)
  · -- create_surface
    intro doc? req
    cases doc? with
    | none => exact envelopeOK_mkErr true 503 _ (by omega)
    | some doc =>
      cases hE : req.elements.isEmpty with
      | true => simp [create_surface_based, hE]; exact envelopeOK_mkErr true 400 _ (by omega)
      | false =>
        cases hL : doc.level_map.isEmpty with
        | true =>
          simp [create_surface_based, hE, hL]
          exact envelopeOK_mkErr true 404 _ (by omega)
        | false =>
          cases hc : doc.commitOk with
          | true =>
            rw [create_surface_based_commit doc req (ne_nil_of_isEmpty_false hE)
                  (ne_nil_of_isEmpty_false hL) hc]
            exact envelopeOK_batchSuccess _ _ _
          | false =>
            simp [create_surface_based, hE, hL, hc]
            exact envelopeOK_mkErr true 500 _ (by omega)
  · -- delete_elements
    intro doc? req?
    cases doc? with
    | none => exact envelopeOK_mkErr true 503 _ (by omega)
    | some doc =>
      cases req? with
      | none => exact envelopeOK_mkErr true 400 _ (by omega)
      | some req =>
        cases hE : req.element_ids.isEmpty with
        | true =>
          simp [delete_elements_handler, hE]
          exact envelopeOK_mkErr true 400 _ (by omega)
        | false =>
          cases hfind : req.element_ids.find? (fun id => (doc.getElement? id).isNone) with
          | some m =>
            simp [delete_elements_handler, hE, hfind]
            exact envelopeOK_mkErr true 404 _ (by omega)
          | none =>
            cases hloop : deleteLoop doc req.element_ids [] [] with
            | error m =>
              simp [delete_elements_handler, hE, hfind, hloop]
              exact envelopeOK_errTb true _ _
            | ok res =>
              cases hc : doc.commitOk with
              | true =>
                simp [delete_elements_handler, hE, hfind, hloop, hc]
                exact envelopeOK_deleteSuccess _ _
              | false =>
                simp [delete_elements_handler, hE, hfind, hloop, hc]
                exact envelopeOK_errTb true _ _
  · -- create_room
    intro doc? req
    cases doc? with
    | none => exact envelopeOK_mkErr true 503 _ (by omega)
    | some doc =>
      cases htr : truthyStr req.level_name? with
      | false =>
        simp [create_room_handler, htr]
        exact envelopeOK_mkErr true 400 _ (by omega)
      | true =>
        cases hfind : doc.levels.find? (fun l => l.getName == req.level_name?.getD "") with
        | none =>
          simp only [create_room_handler, htr, hfind]
          exact Or.inr ⟨Or.inr (Or.inl rfl), _, J.get_cons_self _ _ _⟩
        | some lv =>
          cases hph : doc.phases == 0 with
          | true =>
            simp [create_room_handler, htr, hfind, hph]
            exact envelopeOK_mkErr true 500 _ (by omega)
          | false =>
            cases hp : truthyPt req.location? with
            | true =>
              cases hroom : doc.newRoomAt
                  ((req.location?.getD Pt.empty).gx * MM_TO_FEET,
                   (req.location?.getD Pt.empty).gy * MM_TO_FEET) with
              | false =>
                simp [create_room_handler, htr, hfind, hph, hp, hroom]
                exact envelopeOK_mkErr true 500 _ (by omega)
              | true =>
                cases hc : doc.commitOk with
                | true =>
                  simp [create_room_handler, htr, hfind, hph, hp, hroom, hc]
                  exact envelopeOK_createRoomSuccess _ _ _ _ _ _
                | false =>
                  simp [create_room_handler, htr, hfind, hph, hp, hroom, hc]
                  exact envelopeOK_errTb true _ _
            | false =>
              cases hc : doc.commitOk with
              | true =>
                simp [create_room_handler, htr, hfind, hph, hp, hc]
                exact envelopeOK_createRoomSuccess _ _ _ _ _ _
              | false =>
                simp [create_room_handler, htr, hfind, hph, hp, hc]
                exact envelopeOK_errTb true _ _
  · -- ai_filter
    intro doc? req
    cases doc? with
    | none => exact envelopeOK_mkErr true 503 _ (by omega)
    | some doc =>
      cases hv : req.visible_in_view with
      | true =>
        cases hav : doc.activeView? with
        | none =>
          simp [ai_element_filter_handler, hv, hav]
          exact envelopeOK_mkErr true 400 _ (by omega)
        | some v =>
          by_cases hvt : v.viewType = "Schedule" ∨ v.viewType = "Internal" ∨
              v.viewType = "DrawingSheet"
          · simp [ai_element_filter_handler, hv, hav, hvt]
            exact envelopeOK_mkErr true 400 _ (by omega)
          · cases htc : truthyStr req.category? with
            | false =>
              simp [ai_element_filter_handler, hv, hav, hvt, htc]
              exact envelopeOK_aiFilterSuccess _ _ _
            | true =>
              by_cases hin : (req.category?.getD "") ∈ builtinCategories
              · simp [ai_element_filter_handler, hv, hav, hvt, htc, hin]
                exact envelopeOK_aiFilterSuccess _ _ _
              · simp [ai_element_filter_handler, hv, hav, hvt, htc, hin]
                exact envelopeOK_mkErr true 400 _ (by omega)
      | false =>
        cases htc : truthyStr req.category? with
        | false =>
          simp [ai_element_filter_handler, hv, htc]
          exact envelopeOK_aiFilterSuccess _ _ _
        | true =>
          by_cases hin : (req.category?.getD "") ∈ builtinCategories
          · simp [ai_element_filter_handler, hv, htc, hin]
            exact envelopeOK_aiFilterSuccess _ _ _
          · simp [ai_element_filter_handler, hv, htc, hin]
            exact envelopeOK_mkErr true 400 _ (by omega)
  · -- room_data
    intro doc?
    cases doc? with
    | none => exact envelopeOK_mkErr true 503 _ (by omega)
    | some doc => exact envelopeOK_roomDataSuccess _
  · -- execute_code envelope
    intro doc? req
    cases hcode : req.code.isEmpty with
    | true =>
      simp [execute_code, hcode]
      exact envelopeOK_mkErr false 400 _ (by omega)
    | false =>
      cases doc? with
      | none =>
        simp [execute_code, hcode]
        exact envelopeOK_mkErr false 500 _ (by omega)
      | some doc =>
        cases hrun : doc.execRun req.code with
        | ok output =>
          cases hc : doc.commitOk with
          | true =>
            simp [execute_code, hcode, hrun, hc]
            exact envelopeOK_execSuccess _ _ _
          | false =>
            simp [execute_code, hcode, hrun, hc]
            exact envelopeOK_execFail _ _ _ _
        | fail et m p =>
          simp [execute_code, hcode, hrun]
          exact envelopeOK_execFail _ _ _ _
  · -- execute_code never has a `message` field
    intro doc? req
    cases hcode : req.code.isEmpty with
    | true => simp [execute_code, hcode]; exact mkErr_message_none 400 _
    | false =>
      cases doc? with
      | none => simp [execute_code, hcode]; exact mkErr_message_none 500 _
      | some doc =>
        cases hrun : doc.execRun req.code with
        | ok output =>
          cases hc : doc.commitOk with
          | true =>
            simp [execute_code, hcode, hrun, hc]
            exact execSuccessBody_message_none _ _ _
          | false =>
            simp [execute_code, hcode, hrun, hc]
            exact execFailBody_message_none _ _ _ _
        | fail et m p =>
          simp [execute_code, hcode, hrun]
          exact execFailBody_message_none _ _ _ _

theorem claim_C6_witness :
    envelopeOK true (create_level_handler (some docW) reqC1Lv).resp ∧
    envelopeOK false (execute_code (some docW) ⟨"x = 1", "Code execution"⟩).resp :=
  ⟨claim_C6.1 (some docW) reqC1Lv,
   claim_C6.2.2.2.2.2.2.2.1 (some docW) ⟨"x = 1", "Code execution"⟩⟩

/-- C6 counterexample: the claim's error shape requires a `traceback` string
in every error body, and its success shape a `message` string — but the 503
no-document response of `/delete_elements/` has an `error` field with no
`traceback`, and the 200 success response of `/execute_code/` has no
`message` field. -/
theorem claim_C6_counterexample :
    (delete_elements_handler none none).resp.status = 503 ∧
    (delete_elements_handler none none).resp.body.get "error"
      = some (J.str "No active Revit document") ∧
    (delete_elements_handler none none).resp.body.get "traceback" = none ∧
    (execute_code (some docW) ⟨"x = 1", "Code execution"⟩).resp.status = 200 ∧
    (execute_code (some docW) ⟨"x = 1", "Code execution"⟩).resp.body.get "status"
      = some (J.str "success") ∧
    (execute_code (some docW) ⟨"x = 1", "Code execution"⟩).resp.body.get "message"
      = none :=
  ⟨rfl, rfl, rfl, rfl, rfl, rfl⟩

end RevitMCP
